import Mathlib

/-!
# pgpool: replication-lag worker and online recovery

Shallow embedding of

* `src/streaming_replication/pool_worker_child.c`: `text_to_lsn`, `get_query_result`,
  `check_replication_time_lag`;
* `recovery.c`: `start_recovery` with its helpers `exec_checkpoint`, `exec_recovery`,
  `exec_remote_start`, `check_postmaster_started`, `connect_backend_libpq`,
  `wait_connection_closed`.

C strings are lists of characters or `String`s, `unsigned int` and
`unsigned long long int` are naturals reduced modulo `2 ^ 32` and `2 ^ 64` where the C
arithmetic can wrap, `ereport(ERROR, ...)` is an explicit error outcome, and calls that leave
the process (libpq, `do_query`, shared memory written by other processes) read their answers
from an explicit environment.  `ereport` calls at `LOG` and `DEBUG1` level only print and are
left out of the lag worker's embedding.
-/

namespace Pgpool

/-! ## C library: the pieces of `sscanf` that `text_to_lsn` uses -/

/-- C `isspace` in the "C" locale: space, `\t`, `\n`, `\v`, `\f`, `\r`. -/
def isspace (c : Char) : Bool :=
  c = ' ' || c = Char.ofNat 9 || c = Char.ofNat 10 || c = Char.ofNat 11 ||
    c = Char.ofNat 12 || c = Char.ofNat 13

/-- Value of a hexadecimal digit; `none` when the character is not one. -/
def xdigit (c : Char) : Option Nat :=
  if '0' ≤ c ∧ c ≤ '9' then some (c.toNat - '0'.toNat)
  else if 'a' ≤ c ∧ c ≤ 'f' then some (c.toNat - 'a'.toNat + 10)
  else if 'A' ≤ c ∧ c ≤ 'F' then some (c.toNat - 'A'.toNat + 10)
  else none

/-- C `isxdigit`. -/
def isxdigit (c : Char) : Bool := (xdigit c).isSome

/-- Value of a run of hexadecimal digits, most significant digit first. -/
def hexval (ds : List Char) : Nat :=
  ds.foldl (fun acc c => acc * 16 + (xdigit c).getD 0) 0

/-- What `strtoul` returns for a digit string of value `v` with or without a leading `-`
(64-bit `unsigned long`): `ULONG_MAX` when `v` does not fit, the negation modulo `2 ^ 64`
after a minus sign.  C leaves a value that does not fit the `unsigned int` undefined; this is
what the conversion does where `unsigned long` has 64 bits. -/
def strtoul_value (neg : Bool) (v : Nat) : Nat :=
  if 2 ^ 64 ≤ v then 2 ^ 64 - 1 else if neg then (2 ^ 64 - v) % 2 ^ 64 else v

/-- Outcome of one conversion directive of `sscanf`. -/
inductive Scan where
  | input_failure : Scan
  | matching_failure : Scan
  | assigned (value : Nat) (rest : List Char) : Scan
deriving DecidableEq, Repr

/-- The optional sign of a number: whether it is `-`, and the text after the sign. -/
def skip_sign (s : List Char) : Bool × List Char :=
  match s with
  | c :: t => if c = '-' then (true, t) else if c = '+' then (false, t) else (false, s)
  | [] => (false, [])

/-- The optional `0x` or `0X` in front of a hexadecimal number: whether it was read, and the
text after it.  The C library reads the `0` of the pair as a digit of the number. -/
def skip_0x (s : List Char) : Bool × List Char :=
  match s with
  | a :: b :: t => if a = '0' ∧ (b = 'x' ∨ b = 'X') then (true, t) else (false, s)
  | _ => (false, s)

/-- One `%X` directive storing into an `unsigned int`, as the GNU C library (glibc 2.36)
reads it: skip white space, then an optional sign, an optional `0x` or
`0X`, and the longest run of hexadecimal digits.  The end of the string before any character
of the number is an input failure; a number of which no digit was read is a matching failure.
After `0x` the digit `0` was read, so `0x` without a digit behind it is the number 0 and the
scan goes on behind the `x` (ISO C 7.21.6.2 would make it a matching failure).  The stored
value is the `strtoul` value truncated to 32 bits. -/
def scan_X (s : List Char) : Scan :=
  let s1 := s.dropWhile isspace
  if s1 = [] then Scan.input_failure
  else
    let sg := skip_sign s1
    let px := skip_0x sg.2
    let ds := px.2.takeWhile isxdigit
    if ds = [] ∧ px.1 = false then Scan.matching_failure
    else Scan.assigned (strtoul_value sg.1 (hexval ds) % 2 ^ 32) (px.2.dropWhile isxdigit)

/-- The call `sscanf(text, "%X/%X", &xlogid, &xrecoff)`: the return value (`EOF` is `-1`)
with the two outputs.  An output that was not assigned is given as `0`; `text_to_lsn` reads
the outputs only when the return value is 2. -/
def sscanf_X_slash_X (text : List Char) : Int × Nat × Nat :=
  match scan_X text with
  | Scan.input_failure => (-1, 0, 0)
  | Scan.matching_failure => (0, 0, 0)
  | Scan.assigned xlogid rest =>
    match rest with
    | '/' :: rest2 =>
      match scan_X rest2 with
      | Scan.assigned xrecoff _ => (2, xlogid, xrecoff)
      | _ => (1, xlogid, 0)
    | _ => (1, xlogid, 0)

/-! ## `pool_worker_child.c`: `text_to_lsn` -/

/-- Errors raised with `ereport(ERROR, ...)` in the lag worker. -/
inductive PgError where
  /-- The errmsg "invalid LSN format", errdetail "wrong log location format: %s". -/
  | invalid_LSN_format (text : List Char) : PgError
  /-- The errmsg "Failed to check replication time lag", errdetail
  "No persistent db connection for the node %d". -/
  | no_persistent_connection (node : Nat) : PgError
deriving DecidableEq, Repr

deriving instance DecidableEq for Except

/-- The macro `WALSEGMENTSIZE`, `16 * 1024 * 1024` (expanded without parentheses in C; in
`0xffffffff - WALSEGMENTSIZE` the products bind tighter than the subtraction, as here). -/
def WALSEGMENTSIZE : Nat := 16 * 1024 * 1024

/-- The function `text_to_lsn`: convert logid/recoff style text to a 64-bit log location.
The arithmetic is `unsigned long long int`, so each operation is reduced modulo `2 ^ 64`. -/
def text_to_lsn (text : List Char) : Except PgError Nat :=
  let r := sscanf_X_slash_X text
  if r.1 ≠ 2 then Except.error (PgError.invalid_LSN_format text)
  else Except.ok ((r.2.1 * (0xffffffff - WALSEGMENTSIZE) % 2 ^ 64 + r.2.2) % 2 ^ 64)

/-- The assignment of line 488 of `text_to_lsn`, for the two fields that `sscanf` stored:
`lsn = xlogid * ((unsigned long long int) 0xffffffff - WALSEGMENTSIZE) + xrecoff`. -/
def lsn_of_fields (xlogid xrecoff : Nat) : Nat :=
  (xlogid * (0xffffffff - WALSEGMENTSIZE) % 2 ^ 64 + xrecoff) % 2 ^ 64

/-- C `atoi` on decimal text, which is `(int) strtol(s, NULL, 10)`: white space, an optional
sign, then the leading decimal digits (0 when there is none); `strtol` clamps the value to
the 64-bit `long`, and the conversion to `int` keeps the low 32 bits as a signed number. -/
def atoi (s : List Char) : Int :=
  let sg := skip_sign (s.dropWhile isspace)
  let v : Nat := (sg.2.takeWhile Char.isDigit).foldl (fun acc c => acc * 10 + (c.toNat - '0'.toNat)) 0
  let l : Int :=
    if sg.1 then (if v > 2 ^ 63 then -(2 ^ 63 : Int) else -(v : Int))
    else (if v ≥ 2 ^ 63 then (2 ^ 63 - 1 : Int) else (v : Int))
  (l + 2 ^ 31) % 2 ^ 32 - 2 ^ 31

/-- C `strlcpy(dst, src, size)`: `dst` receives at most `size - 1` characters of `src`. -/
def strlcpy (src : List Char) (size : Nat) : List Char := src.take (size - 1)

/-! ## `pool_worker_child.c`: `get_query_result` -/

/-- What `do_query` does on a diagnostic connection: it raises an error, or it fills a
`POOL_SELECT_RESULT` whose `numrows` is the number of rows returned. -/
inductive DoQuery (α : Type) where
  | raised : DoQuery α
  | result (rows : List α) : DoQuery α

/-- The function `get_query_result`: run `query` on backend `backend_id`.  An error of
`do_query` is caught (`res = NULL`, status `-1`); a result without rows is freed (status
`-1`); otherwise the status is `0` and the caller owns the result.  The second component is
the result handed to the caller, present exactly when the status is `0`. -/
def get_query_result {α : Type} (do_query : Nat → String → DoQuery α) (backend_id : Nat)
    (query : String) : Int × Option (List α) :=
  match do_query backend_id query with
  | DoQuery.raised => (-1, none)
  | DoQuery.result rows => if (rows.length : Int) ≤ 0 then (-1, none) else (0, some rows)

/-! ## `pool_worker_child.c`: `check_replication_time_lag` -/

/-- The fields of `BackendInfo` that the lag check reads and writes. -/
structure BackendInfo where
  backend_application_name : List Char
  replication_state : List Char
  replication_sync_state : List Char
  standby_delay : Nat
deriving DecidableEq, Repr

/-- One row of `pg_stat_replication` as `do_query` stores it: `data[j*3]`, `data[j*3+1]`,
`data[j*3+2]`.  The application name is compared with `strcmp` without a test for `NULL`, so
it is a string here; the two state columns are tested and may be `NULL`. -/
structure StatRow where
  application_name : List Char
  state : Option (List Char)
  sync_state : Option (List Char)
deriving DecidableEq, Repr

/-- What the backends answer during one cycle, by node and query text.  For the version
query `data[0]` is passed to `atoi` untested, so it is a string; for the log location query
`data[0]` is `none` exactly when `nullflags[0]` is `-1`. -/
structure Backends where
  version : Nat → String → DoQuery (List Char)
  location : Nat → String → DoQuery (Option (List Char))
  stat_replication : Nat → String → DoQuery StatRow

/-- The state around one call of `check_replication_time_lag`: the values of the macros
`NUM_BACKENDS`, `VALID_BACKEND`, `REAL_PRIMARY_NODE_ID`, `PRIMARY_NODE_ID` and `NAMEDATALEN`
(declared outside this file), whether each entry of the static `slots` array is non-null, the
static `server_version` cache, and the node descriptors that `pool_get_node_info` returns. -/
structure Worker where
  NUM_BACKENDS : Nat
  VALID_BACKEND : Nat → Bool
  REAL_PRIMARY_NODE_ID : Int
  PRIMARY_NODE_ID : Nat
  NAMEDATALEN : Nat
  slots : Nat → Bool
  server_version : Nat → Int
  backend_info : Nat → BackendInfo

/-- The automatic variables of `check_replication_time_lag` that live across its loops. -/
structure Locals where
  lsn : Nat → Nat
  stat_rep_query : Option String

/-- How a call of `check_replication_time_lag` ends: the state it leaves, and the error it
raised with `ereport(ERROR, ...)` if it did not return. -/
structure Outcome where
  state : Worker
  error : Option PgError

/-- The macro `PG10_SERVER_VERSION`. -/
def PG10_SERVER_VERSION : Int := 100000

/-- The macro `PG91_SERVER_VERSION`. -/
def PG91_SERVER_VERSION : Int := 90100

/-- The loop `for (i = lo; i < lo + n; i++) body`. -/
def for_loop {σ : Type} (body : Nat → σ → σ) : Nat → Nat → σ → σ
  | 0, _, s => s
  | n + 1, i, s => for_loop body n (i + 1) (body i s)

/-- The loop `for (i = lo; i < lo + n; i++) body` whose body may raise an error, which ends
the loop with the state reached. -/
def for_loop_try {σ ε : Type} (body : Nat → σ → σ × Option ε) : Nat → Nat → σ → σ × Option ε
  | 0, _, s => (s, none)
  | n + 1, i, s =>
    match body i s with
    | (s1, some e) => (s1, some e)
    | (s1, none) => for_loop_try body n (i + 1) s1

/-- Store a node descriptor. -/
def Worker.set_info (w : Worker) (i : Nat) (b : BackendInfo) : Worker :=
  { w with backend_info := Function.update w.backend_info i b }

/-- Body of the first loop (lines 283-289): clear the replication state of node `i`. -/
def clear_replication_state (i : Nat) (w : Worker) : Worker :=
  w.set_info i { w.backend_info i with replication_state := [], replication_sync_state := [] }

/-- Lines 326-341: when no server version is cached for node `i`, ask the backend for it; if
the query fails, keep the previous value. -/
def refresh_server_version (env : Backends) (i : Nat) (w : Worker) : Worker :=
  if w.server_version i = 0 then
    match get_query_result env.version i "SELECT current_setting('server_version_num')" with
    | (0, some rows) =>
      { w with server_version := Function.update w.server_version i (atoi (rows.headD [])) }
    | _ => w
  else w

/-- Lines 343-361: the log location query for node `i`, by role and server version. -/
def location_query (w : Worker) (i : Nat) : String :=
  if w.PRIMARY_NODE_ID = i then
    if w.server_version i ≥ PG10_SERVER_VERSION then "SELECT pg_current_wal_lsn()"
    else "SELECT pg_current_xlog_location()"
  else
    if w.server_version i ≥ PG10_SERVER_VERSION then "SELECT pg_last_wal_replay_lsn()"
    else "SELECT pg_last_xlog_replay_location()"

/-- Lines 350-353: the value of `stat_rep_query` after node `i` was visited. -/
def choose_stat_rep_query (w : Worker) (i : Nat) (stat_rep_query : Option String) :
    Option String :=
  if w.PRIMARY_NODE_ID = i then
    if w.server_version i = PG91_SERVER_VERSION then
      some "SELECT application_name, state, '' AS sync_state FROM pg_stat_replication"
    else if w.server_version i > PG91_SERVER_VERSION then
      some "SELECT application_name, state, sync_state FROM pg_stat_replication"
    else stat_rep_query
  else stat_rep_query

/-- Body of the sampling loop (lines 312-372) for node `i`. -/
def sample_node (env : Backends) (i : Nat) (st : Worker × Locals) :
    (Worker × Locals) × Option PgError :=
  if !st.1.VALID_BACKEND i then (st, none)
  else if !st.1.slots i then (st, some (PgError.no_persistent_connection i))
  else
    let w1 := refresh_server_version env i st.1
    let stat_rep_query := choose_stat_rep_query w1 i st.2.stat_rep_query
    match get_query_result env.location i (location_query w1 i) with
    | (0, some (some text :: _)) =>
      match text_to_lsn text with
      | Except.ok v =>
        ((w1, { lsn := Function.update st.2.lsn i v, stat_rep_query := stat_rep_query }), none)
      | Except.error e => ((w1, { st.2 with stat_rep_query := stat_rep_query }), some e)
    | _ =>
      ((w1, { lsn := Function.update st.2.lsn i 0, stat_rep_query := stat_rep_query }), none)

/-- The inner loop over the rows of `pg_stat_replication` (lines 404-419) for one node: every
row whose application name equals the node's overwrites the two state fields. -/
def fill_from_rows (NAMEDATALEN : Nat) (rows : List StatRow) (b : BackendInfo) : BackendInfo :=
  rows.foldl
    (fun b r =>
      if r.application_name = b.backend_application_name then
        { b with
          replication_state := strlcpy (r.state.getD []) NAMEDATALEN,
          replication_sync_state := strlcpy (r.sync_state.getD []) NAMEDATALEN }
      else b)
    b

/-- Body of the loop over the nodes after the `pg_stat_replication` query (lines 389-421). -/
def fill_replication_state (status : Int) (rows : List StatRow) (i : Nat) (w : Worker) :
    Worker :=
  let b : BackendInfo :=
    { w.backend_info i with replication_state := [], replication_sync_state := [] }
  if i = w.PRIMARY_NODE_ID then w.set_info i b
  else if status = 0 then w.set_info i (fill_from_rows w.NAMEDATALEN rows b)
  else w.set_info i b

/-- Body of the last loop (lines 426-454): set the standby delay of node `i`. -/
def set_standby_delay (lsn : Nat → Nat) (i : Nat) (w : Worker) : Worker :=
  if !w.VALID_BACKEND i then w
  else
    let lag : Nat :=
      if lsn w.PRIMARY_NODE_ID > lsn i then (lsn w.PRIMARY_NODE_ID - lsn i) % 2 ^ 64 else 0
    if w.PRIMARY_NODE_ID = i then w.set_info i { w.backend_info i with standby_delay := 0 }
    else w.set_info i { w.backend_info i with standby_delay := lag }

/-- The sampling loop of a cycle, started after the replication state was cleared: the state,
the `lsn` array and `stat_rep_query` it leaves, and the error it raised.  `lsn0` is the
indeterminate initial content of the automatic array `lsn`. -/
def sampling (env : Backends) (lsn0 : Nat → Nat) (w : Worker) :
    (Worker × Locals) × Option PgError :=
  for_loop_try (sample_node env) w.NUM_BACKENDS 0
    (for_loop clear_replication_state w.NUM_BACKENDS 0 w,
      { lsn := fun k => lsn0 k % 2 ^ 64, stat_rep_query := none })

/-- The step that calls `pg_stat_replication` and fills the replication status
(lines 377-424). -/
def correlate (env : Backends) (w : Worker) (l : Locals) : Worker :=
  match l.stat_rep_query with
  | some stat_rep_query =>
    if w.slots w.PRIMARY_NODE_ID then
      let r := get_query_result env.stat_replication w.PRIMARY_NODE_ID stat_rep_query
      for_loop (fill_replication_state r.1 (r.2.getD [])) w.NUM_BACKENDS 0 w
    else w
  | none => w

/-- The function `check_replication_time_lag`. -/
def check_replication_time_lag (env : Backends) (lsn0 : Nat → Nat) (w : Worker) : Outcome :=
  let w1 := for_loop clear_replication_state w.NUM_BACKENDS 0 w
  if w1.NUM_BACKENDS ≤ 1 then { state := w1, error := none }
  else if w1.REAL_PRIMARY_NODE_ID < 0 then { state := w1, error := none }
  else
    match sampling env lsn0 w with
    | ((w2, _), some e) => { state := w2, error := some e }
    | ((w2, l), none) =>
      { state := for_loop (set_standby_delay l.lsn) w2.NUM_BACKENDS 0 (correlate env w2 l),
        error := none }

/-- The `lsn` array as the lag step of a cycle reads it. -/
def sampled_lsn (env : Backends) (lsn0 : Nat → Nat) (w : Worker) : Nat → Nat :=
  (sampling env lsn0 w).1.2.lsn

/-! ## Notions used to state the properties of the lag worker -/

/-- The strict reading of a well-formed position text: a non-empty run of hexadecimal digits,
one `/`, and a non-empty run of hexadecimal digits up to the end of the text. -/
def two_hex_fields (text : List Char) : Bool :=
  match text.dropWhile isxdigit with
  | '/' :: off => !(text.takeWhile isxdigit).isEmpty && !off.isEmpty && off.all isxdigit
  | _ => false

/-- The text `s` begins with a field that `%X` accepts, followed by `rest`: white space, an
optional sign, and then one or more hexadecimal digits, or `0x` or `0X` and any number of
hexadecimal digits (`0x` without a digit reads as the number 0). -/
def HexField (s rest : List Char) : Prop :=
  ∃ ws sg px ds : List Char, s = ws ++ sg ++ px ++ ds ++ rest ∧
    (∀ c ∈ ws, isspace c = true) ∧ (sg = [] ∨ sg = ['+'] ∨ sg = ['-']) ∧
    (px = [] ∨ px = ['0', 'x'] ∨ px = ['0', 'X']) ∧ (ds ≠ [] ∨ px ≠ []) ∧
    ∀ c ∈ ds, isxdigit c = true

/-- The text begins with two `%X` fields separated by `/`; what follows the second field is
free. -/
def LeadingHexFields (text : List Char) : Prop :=
  ∃ mid rest : List Char, HexField text ('/' :: mid) ∧ HexField mid rest

/-- The state `w1` differs from `w` at most in the server version cache. -/
def Worker.same_config (w w1 : Worker) : Prop :=
  w1.NUM_BACKENDS = w.NUM_BACKENDS ∧ w1.VALID_BACKEND = w.VALID_BACKEND ∧
    w1.REAL_PRIMARY_NODE_ID = w.REAL_PRIMARY_NODE_ID ∧
    w1.PRIMARY_NODE_ID = w.PRIMARY_NODE_ID ∧ w1.NAMEDATALEN = w.NAMEDATALEN ∧
    w1.slots = w.slots ∧ w1.backend_info = w.backend_info

/-- The text that the sampling loop decodes from the answer to a log location query: the
first value of a result with at least one row, when it is not null. -/
def location_text (answer : DoQuery (Option (List Char))) : Option (List Char) :=
  match answer with
  | DoQuery.result (some text :: _) => some text
  | _ => none

/-- What the first loop does to a node descriptor. -/
def clear_rule (b : BackendInfo) : BackendInfo :=
  { b with replication_state := [], replication_sync_state := [] }

/-- What the loop after the `pg_stat_replication` query does to the descriptor of node `i`. -/
def fill_rule (status : Int) (rows : List StatRow) (w : Worker) (i : Nat) (b : BackendInfo) :
    BackendInfo :=
  if i = w.PRIMARY_NODE_ID then clear_rule b
  else if status = 0 then fill_from_rows w.NAMEDATALEN rows (clear_rule b)
  else clear_rule b

/-- What the last loop does to the descriptor of node `i`. -/
def delay_rule (lsn : Nat → Nat) (w : Worker) (i : Nat) (b : BackendInfo) : BackendInfo :=
  if w.VALID_BACKEND i = true then
    if w.PRIMARY_NODE_ID = i then { b with standby_delay := 0 }
    else
      { b with standby_delay :=
          if lsn w.PRIMARY_NODE_ID > lsn i then (lsn w.PRIMARY_NODE_ID - lsn i) % 2 ^ 64
          else 0 }
  else b

/-- The answer of node `i` to the log location query that the sampling loop sends it in a
cycle started in state `w`: the query is the one chosen for the node's role and for its
server version, which is the cached one or, when none is cached, the one asked in this
cycle. -/
def location_answer (env : Backends) (w : Worker) (i : Nat) : DoQuery (Option (List Char)) :=
  env.location i (location_query (refresh_server_version env i w) i)

/-- The position sampled from node `i` in a cycle started in state `w`: the position decoded
from the text of its answer, and 0 when the query raises or the answer has no row or a null
value.  (A text that `text_to_lsn` rejects ends the cycle with an error; 0 stands for it
here.) -/
def position (env : Backends) (w : Worker) (i : Nat) : Nat :=
  match location_text (location_answer env w i) with
  | some text =>
    match text_to_lsn text with
    | Except.ok v => v
    | Except.error _ => 0
  | none => 0

/-- The error that the visit of node `i` raises in a cycle started in state `w`, if any: none
for a node that is not up, "No persistent db connection" for an up node without connection,
and for an up node with a connection the error of `text_to_lsn` on the text of its answer. -/
def node_error (env : Backends) (w : Worker) (i : Nat) : Option PgError :=
  if w.VALID_BACKEND i = true then
    if w.slots i = true then
      match location_text (location_answer env w i) with
      | some text =>
        match text_to_lsn text with
        | Except.ok _ => none
        | Except.error e => some e
      | none => none
    else some (PgError.no_persistent_connection i)
  else none

/-- The sampling loop of a cycle started in state `w` is about to visit node `k` in state
`st`: the configuration is that of `w`, and the server versions of the nodes from `k` on are
still those of `w`. -/
def Visiting (w : Worker) (k : Nat) (st : Worker × Locals) : Prop :=
  st.1.NUM_BACKENDS = w.NUM_BACKENDS ∧ st.1.VALID_BACKEND = w.VALID_BACKEND ∧
    st.1.PRIMARY_NODE_ID = w.PRIMARY_NODE_ID ∧ st.1.slots = w.slots ∧
    ∀ j, k ≤ j → st.1.server_version j = w.server_version j

/-- Scenario A, the answers: server version 10.5 everywhere; the primary (node 0) is at
`0/16000000`, standby A (node 1) at `0/15000000`, the query to standby B (node 2) raises;
`pg_stat_replication` on the primary lists standby A. -/
def scenario_A_backends : Backends where
  version := fun _ _ => DoQuery.result ["100005".toList]
  location := fun i _ =>
    if i = 0 then DoQuery.result [some "0/16000000".toList]
    else if i = 1 then DoQuery.result [some "0/15000000".toList]
    else DoQuery.raised
  stat_replication := fun _ _ =>
    DoQuery.result [{ application_name := "standby_a".toList,
                      state := some "streaming".toList, sync_state := some "async".toList }]

/-- Scenario A, the cluster: three up nodes, node 0 is the primary, standby B (node 2) has
no diagnostic connection; the descriptors hold values of an earlier cycle. -/
def scenario_A : Worker where
  NUM_BACKENDS := 3
  VALID_BACKEND := fun _ => true
  REAL_PRIMARY_NODE_ID := 0
  PRIMARY_NODE_ID := 0
  NAMEDATALEN := 64
  slots := fun i => decide (i < 2)
  server_version := fun _ => 0
  backend_info := fun i =>
    { backend_application_name := if i = 1 then "standby_a".toList else "standby_b".toList,
      replication_state := "stale".toList, replication_sync_state := "stale".toList,
      standby_delay := 0 }

/-- Scenario A with a diagnostic connection to every node. -/
def scenario_A_connected : Worker := { scenario_A with slots := fun _ => true }

/-- Scenario A's answers, except that standby B (node 2) answers the log location query
with one row holding a null value. -/
def scenario_null_backends : Backends :=
  { scenario_A_backends with
    location := fun i q =>
      if i = 2 then DoQuery.result [none] else scenario_A_backends.location i q }

/-- Scenario A's positions of the nodes that answer: `0/16000000` for the primary and
`0/15000000` for the others. -/
def scenario_A_positions (j : Nat) : Nat := if j = 0 then 0x16000000 else 0x15000000

/-! ## `recovery.c` -/

namespace Recovery

/-- The libpq `ConnStatusType`, as far as `recovery.c` tells its values apart. -/
inductive ConnStatusType where
  | CONNECTION_OK : ConnStatusType
  | CONNECTION_BAD : ConnStatusType
deriving DecidableEq, Repr

/-- The libpq `ExecStatusType`. -/
inductive ExecStatusType where
  | PGRES_EMPTY_QUERY : ExecStatusType
  | PGRES_COMMAND_OK : ExecStatusType
  | PGRES_TUPLES_OK : ExecStatusType
  | PGRES_BAD_RESPONSE : ExecStatusType
  | PGRES_NONFATAL_ERROR : ExecStatusType
  | PGRES_FATAL_ERROR : ExecStatusType
deriving DecidableEq, Repr

/-- The request kinds of `Req_info->kind` (declared in `pool.h`); `recovery.c` names only
`NODE_RECOVERY_REQUEST`. -/
inductive POOL_REQUEST_KIND where
  | NODE_UP_REQUEST : POOL_REQUEST_KIND
  | NODE_DOWN_REQUEST : POOL_REQUEST_KIND
  | NODE_RECOVERY_REQUEST : POOL_REQUEST_KIND
  | CLOSE_IDLE_REQUEST : POOL_REQUEST_KIND
deriving DecidableEq, Repr

/-- The fields of `BackendInfo` that `recovery.c` reads. -/
structure BackendInfo where
  backend_hostname : String
  backend_port : Int
  backend_data_directory : String
deriving DecidableEq, Repr

/-- The configuration and node status that `start_recovery` reads: the macros `VALID_BACKEND`
and `MASTER_NODE_ID`, and the fields of `pool_config`.  A script that is `NULL` is `none`. -/
structure PoolConfig where
  VALID_BACKEND : Nat → Bool
  MASTER_NODE_ID : Nat
  backend_info : Nat → BackendInfo
  recovery_1st_stage_command : Option String
  recovery_2nd_stage_command : Option String
  recovery_user : String
  recovery_password : String

/-- What the world outside the process answers: the status of the connection that the
`n`-th call of `PQsetdbLogin` returns, the result status of the `n`-th call of `PQexec`
(given its command) with the text that `PQresultErrorMessage` gives for that result, and the
value of `Req_info->conn_counter` at its `n`-th reading. -/
structure Outside where
  login : Nat → ConnStatusType
  exec : Nat → String → ExecStatusType
  error_message : Nat → String
  conn_counter : Nat → Int

/-- A call that leaves `recovery.c`, in the order made.  A connection is named by the index
of the `PQsetdbLogin` call that returned it; `PQfinish none` is `PQfinish(NULL)`.  The
`pool_debug` lines and `PQclear` are left out. -/
inductive Event where
  | pool_error (message : String) : Event
  | PQsetdbLogin (host port dbname user password : String) : Event
  | PQfinish (conn : Option Nat) : Event
  | PQexec (conn : Nat) (command : String) : Event
  | sleep (seconds : Nat) : Event
  | send_failback_request (node : Nat) : Event
  | pause : Event
deriving DecidableEq, Repr

/-- The shared state `Req_info->kind` and `*InRecovery`, how many answers of the outside
world were consumed so far, and the calls made so far. -/
structure State where
  kind : POOL_REQUEST_KIND
  InRecovery : Int
  logins : Nat
  execs : Nat
  reads : Nat
  trace : List Event
deriving DecidableEq, Repr

/-- Append one call to the trace. -/
def State.emit (s : State) (e : Event) : State := { s with trace := s.trace ++ [e] }

/-- The macro `WAIT_RETRY_COUNT`. -/
def WAIT_RETRY_COUNT : Nat := 30

/-- C `snprintf(buf, size, ...)` once the text is formatted: at most `size - 1` characters
are stored (a character stands for one byte of the C string). -/
def snprintf (size : Nat) (formatted : String) : String := formatted.take (size - 1)

/-- The name used for a backend in the recovery commands: "localhost" when its host name is
empty. -/
def hostname_of (backend : BackendInfo) : String :=
  if backend.backend_hostname.length = 0 then "localhost" else backend.backend_hostname

/-- The call `PQsetdbLogin(backend_hostname, port_str, NULL, NULL, "template1", recovery_user,
recovery_password)` followed by `PQstatus`. -/
def login (cfg : PoolConfig) (env : Outside) (backend : BackendInfo) (s : State) :
    ConnStatusType × State :=
  (env.login s.logins,
    { s with logins := s.logins + 1 }.emit
      (Event.PQsetdbLogin backend.backend_hostname (snprintf 16 (toString backend.backend_port))
        "template1" cfg.recovery_user cfg.recovery_password))

/-- The function `connect_backend_libpq`: the connection, or `none` for `NULL`. -/
def connect_backend_libpq (cfg : PoolConfig) (env : Outside) (backend : BackendInfo)
    (s : State) : Option Nat × State :=
  let r := login cfg env backend s
  if r.1 ≠ ConnStatusType.CONNECTION_OK then (none, r.2.emit (Event.PQfinish (some s.logins)))
  else (some s.logins, r.2)

/-- The call `PQexec(conn, command)` followed by `PQresultStatus`. -/
def PQexec (env : Outside) (conn : Nat) (command : String) (s : State) :
    ExecStatusType × State :=
  (env.exec s.execs command, { s with execs := s.execs + 1 }.emit (Event.PQexec conn command))

/-- The function `exec_checkpoint`: execute CHECKPOINT. -/
def exec_checkpoint (env : Outside) (conn : Nat) (s : State) : Int × State :=
  let r := PQexec env conn "CHECKPOINT" s
  (if r.1 ≠ ExecStatusType.PGRES_COMMAND_OK then 1 else 0, r.2)

/-- The script of a recovery stage, `none` when `exec_recovery` does not execute a script
(the configured command is `NULL` or empty). -/
def stage_script (cfg : PoolConfig) (first_stage : Bool) : Option String :=
  match (if first_stage then cfg.recovery_1st_stage_command
    else cfg.recovery_2nd_stage_command) with
  | none => none
  | some script => if script.length = 0 then none else some script

/-- The text that `exec_recovery` puts in `recovery_command` for a script. -/
def recovery_command (script : String) (backend : BackendInfo) : String :=
  snprintf 1024
    ("SELECT pgpool_recovery('" ++ script ++ "', '" ++ hostname_of backend ++ "', '" ++
      backend.backend_data_directory ++ "')")

/-- The text that `exec_remote_start` puts in `recovery_command`. -/
def remote_start_command (backend : BackendInfo) : String :=
  snprintf 1024
    ("SELECT pgpool_remote_start('" ++ hostname_of backend ++ "', '" ++
      backend.backend_data_directory ++ "')")

/-- The function `exec_recovery`: call `pgpool_recovery()`. -/
def exec_recovery (cfg : PoolConfig) (env : Outside) (conn : Nat) (backend : BackendInfo)
    (first_stage : Bool) (s : State) : Int × State :=
  match stage_script cfg first_stage with
  | none => (0, s)
  | some script =>
    let r := PQexec env conn (recovery_command script backend) s
    if r.1 ≠ ExecStatusType.PGRES_TUPLES_OK then
      (1, r.2.emit (Event.pool_error
        ("exec_recovery: pgpool_recovery failed: " ++ env.error_message s.execs)))
    else (0, r.2)

/-- The function `exec_remote_start`: call `pgpool_remote_start()`. -/
def exec_remote_start (env : Outside) (conn : Nat) (backend : BackendInfo) (s : State) :
    Int × State :=
  let r := PQexec env conn (remote_start_command backend) s
  if r.1 ≠ ExecStatusType.PGRES_TUPLES_OK then
    (1, r.2.emit (Event.pool_error
      ("exec_remote_start: pgpool_remote_start failed: " ++ env.error_message s.execs)))
  else (0, r.2)

/-- The loop of `check_postmaster_started` with `n` iterations left. -/
def check_postmaster_started_loop (cfg : PoolConfig) (env : Outside) (backend : BackendInfo) :
    Nat → State → Int × State
  | 0, s => (1, s)
  | n + 1, s =>
    let r := login cfg env backend s
    let s1 := r.2.emit (Event.PQfinish (some s.logins))
    if r.1 = ConnStatusType.CONNECTION_OK then (0, s1)
    else check_postmaster_started_loop cfg env backend n (s1.emit (Event.sleep 3))

/-- The function `check_postmaster_started`: check postmaster is started. -/
def check_postmaster_started (cfg : PoolConfig) (env : Outside) (backend : BackendInfo)
    (s : State) : Int × State :=
  check_postmaster_started_loop cfg env backend WAIT_RETRY_COUNT s

/-- The loop of `wait_connection_closed` with `n` iterations left. -/
def wait_connection_closed_loop (env : Outside) : Nat → State → Int × State
  | 0, s => (1, s)
  | n + 1, s =>
    if env.conn_counter s.reads = 0 then (0, { s with reads := s.reads + 1 })
    else wait_connection_closed_loop env n ({ s with reads := s.reads + 1 }.emit (Event.sleep 3))

/-- The function `wait_connection_closed`: wait until all connections are closed; if a
connection remains, sleep 3 seconds and retry. -/
def wait_connection_closed (env : Outside) (s : State) : Int × State :=
  wait_connection_closed_loop env WAIT_RETRY_COUNT s

/-- Leave `start_recovery` on a failure after the master was connected: `PQfinish(conn)`,
then the error message if there is one, then `return 1`. -/
def fail (conn : Nat) (message : Option String) (s : State) : Int × State :=
  let s1 := s.emit (Event.PQfinish (some conn))
  match message with
  | some m => (1, s1.emit (Event.pool_error m))
  | none => (1, s1)

/-- The second stage of `start_recovery` (lines 82-121), entered with the master connection
`conn` open. -/
def second_stage (cfg : PoolConfig) (env : Outside) (recovery_node : Nat) (conn : Nat)
    (s : State) : Int × State :=
  let recovery_backend := cfg.backend_info recovery_node
  let s1 : State := { s with InRecovery := 1 }
  let r1 := wait_connection_closed env s1
  if r1.1 ≠ 0 then
    fail conn (some "start_recovery: timeover for waiting connection closed") r1.2
  else
    let r2 := exec_checkpoint env conn r1.2
    if r2.1 ≠ 0 then fail conn (some "start_recovery: CHECKPOINT failed") r2.2
    else
      let r3 := exec_recovery cfg env conn recovery_backend false r2.2
      if r3.1 ≠ 0 then fail conn none r3.2
      else
        let r4 := exec_remote_start env conn recovery_backend r3.2
        if r4.1 ≠ 0 then fail conn (some "start_recovery: remote start failed") r4.2
        else
          let r5 := check_postmaster_started cfg env recovery_backend r4.2
          if r5.1 ≠ 0 then fail conn (some "start_recovery: check start failed") r5.2
          else
            (0, ((r5.2.emit (Event.send_failback_request recovery_node)).emit
              Event.pause).emit (Event.PQfinish (some conn)))

/-- The function `start_recovery`.  The call `pause()` returns when the failback signal
arrives; the embedding records the call and goes on. -/
def start_recovery (cfg : PoolConfig) (env : Outside) (recovery_node : Nat) (s : State) :
    Int × State :=
  if cfg.VALID_BACKEND recovery_node then
    (1, s.emit (Event.pool_error
      ("start_recovery: backend node " ++ toString recovery_node ++ " is alive")))
  else
    let s0 : State := { s with kind := POOL_REQUEST_KIND.NODE_RECOVERY_REQUEST }
    let backend := cfg.backend_info cfg.MASTER_NODE_ID
    let recovery_backend := cfg.backend_info recovery_node
    match connect_backend_libpq cfg env backend s0 with
    | (none, s1) =>
      (1, (s1.emit (Event.PQfinish none)).emit
        (Event.pool_error "start_recover: could not connect master node."))
    | (some conn, s1) =>
      let r1 := exec_checkpoint env conn s1
      if r1.1 ≠ 0 then fail conn (some "start_recovery: CHECKPOINT failed") r1.2
      else
        let r2 := exec_recovery cfg env conn recovery_backend true r1.2
        if r2.1 ≠ 0 then fail conn none r2.2
        else second_stage cfg env recovery_node conn r2.2

/-- The function `finish_recovery`: clear the flag (the signal to the parent is outside the
state modelled here). -/
def finish_recovery (s : State) : State := { s with InRecovery := 0 }

/-- Number of failback requests for `node` among the calls of a trace. -/
def failback_requests (node : Nat) (trace : List Event) : Nat :=
  trace.count (Event.send_failback_request node)

/-- Number of `sleep(3)` calls in a trace. -/
def sleeps (trace : List Event) : Nat := trace.count (Event.sleep 3)

/-! ## Notions used to state the properties of the recovery -/

/-- The state `s1` has the shared fields of `s` and as many failback requests in its trace. -/
def Frame (s s1 : State) : Prop :=
  s1.kind = s.kind ∧ s1.InRecovery = s.InRecovery ∧
    ∀ m, failback_requests m s1.trace = failback_requests m s.trace

/-- The state `s1` is `s` after `d` more calls of `PQexec` and calls that are not failback
requests. -/
def ExecStep (s s1 : State) (d : Nat) : Prop :=
  Frame s s1 ∧ s1.execs = s.execs + d ∧ s1.logins = s.logins ∧ s1.reads = s.reads

/-- Number of `PQexec` calls of a recovery stage: 1 when a script is executed, else 0. -/
def script_calls (cfg : PoolConfig) (first_stage : Bool) : Nat :=
  if (stage_script cfg first_stage).isSome then 1 else 0

/-- The script of a stage succeeds when it is executed as the `n`-th `PQexec` call: there is
no script to execute, or the call answers `PGRES_TUPLES_OK`. -/
def script_ok (cfg : PoolConfig) (env : Outside) (backend : BackendInfo) (first_stage : Bool)
    (n : Nat) : Prop :=
  ∀ script, stage_script cfg first_stage = some script →
    env.exec n (recovery_command script backend) = ExecStatusType.PGRES_TUPLES_OK

/-- Every stage after the first copy succeeds, for a state `s` at the start of the second
stage: the quiesce wait sees a reading 0 within 30 polls, the second checkpoint, the second
script and the remote start succeed, and one of 30 trial logins succeeds. -/
def second_stage_ok (cfg : PoolConfig) (env : Outside) (recovery_node : Nat) (s : State) :
    Prop :=
  (∃ k, k < 30 ∧ env.conn_counter (s.reads + k) = 0) ∧
    env.exec s.execs "CHECKPOINT" = ExecStatusType.PGRES_COMMAND_OK ∧
    script_ok cfg env (cfg.backend_info recovery_node) false (s.execs + 1) ∧
    env.exec (s.execs + 1 + script_calls cfg false)
        (remote_start_command (cfg.backend_info recovery_node))
      = ExecStatusType.PGRES_TUPLES_OK ∧
    ∃ k, k < 30 ∧ env.login (s.logins + k) = ConnStatusType.CONNECTION_OK

/-- The first stage succeeds from the state `s`: the master is connected, the first
checkpoint and the first script succeed. -/
def first_stage_ok (cfg : PoolConfig) (env : Outside) (recovery_node : Nat) (s : State) :
    Prop :=
  env.login s.logins = ConnStatusType.CONNECTION_OK ∧
    env.exec s.execs "CHECKPOINT" = ExecStatusType.PGRES_COMMAND_OK ∧
    script_ok cfg env (cfg.backend_info recovery_node) true (s.execs + 1)

/-- Every stage of a recovery started in state `s` succeeds, in the order of the protocol:
master connection, checkpoint 1, stage 1 script, quiesce, checkpoint 2, stage 2 script,
remote start, readiness poll.  Each stage reads the answers that come after those consumed
by the stages before it. -/
def stages_ok (cfg : PoolConfig) (env : Outside) (recovery_node : Nat) (s : State) : Prop :=
  first_stage_ok cfg env recovery_node s ∧
    second_stage_ok cfg env recovery_node
      { s with logins := s.logins + 1, execs := s.execs + 1 + script_calls cfg true }

/-- Scenario B: three nodes, node 2 is down, both copy scripts are configured. -/
def scenario_config : PoolConfig where
  VALID_BACKEND := fun i => decide (i < 2)
  MASTER_NODE_ID := 0
  backend_info := fun i => { backend_hostname := if i = 2 then "" else "db",
                             backend_port := 5432, backend_data_directory := "/data" }
  recovery_1st_stage_command := some "copy1"
  recovery_2nd_stage_command := some "copy2"
  recovery_user := "postgres"
  recovery_password := ""

/-- Scenario B: every login and every command succeeds, and the connection counter reaches 0
at the third reading (after 2 polls that saw connections). -/
def scenario_B : Outside where
  login := fun _ => ConnStatusType.CONNECTION_OK
  exec := fun n _ =>
    if n = 0 ∨ n = 2 then ExecStatusType.PGRES_COMMAND_OK else ExecStatusType.PGRES_TUPLES_OK
  error_message := fun _ => ""
  conn_counter := fun n => if n < 2 then 3 else 0

/-- Scenario C: as scenario B, but only the login to the master succeeds; no trial login to
the recovered node does. -/
def scenario_C : Outside :=
  { scenario_B with
    login := fun n => if n = 0 then ConnStatusType.CONNECTION_OK
      else ConnStatusType.CONNECTION_BAD }

/-- A world in which the connection counter never reaches 0. -/
def scenario_busy : Outside := { scenario_B with conn_counter := fun _ => 1 }

/-- The state before a recovery: no recovery in progress, nothing called yet. -/
def idle : State :=
  { kind := POOL_REQUEST_KIND.NODE_UP_REQUEST, InRecovery := 0, logins := 0, execs := 0,
    reads := 0, trace := [] }

end Recovery

/-! ## Theorems: `text_to_lsn` -/

theorem isxdigit_of_isspace {c : Char} (h : isspace c = true) : isxdigit c = false := by
  unfold isspace at h
  simp only [Bool.or_eq_true, decide_eq_true_eq] at h
  rcases h with ((((h | h) | h) | h) | h) | h <;> subst h <;> decide

theorem isspace_of_isxdigit {c : Char} (h : isxdigit c = true) : isspace c = false := by
  cases hs : isspace c with
  | false => rfl
  | true => rw [isxdigit_of_isspace hs] at h; exact absurd h (by decide)

theorem ne_of_isxdigit {c d : Char} (h : isxdigit c = true) (hd : isxdigit d = false) :
    c ≠ d := by
  intro hcd
  rw [hcd, hd] at h
  exact absurd h (by decide)

theorem takeWhile_isxdigit_append (ds rest : List Char) (hds : ∀ c ∈ ds, isxdigit c = true)
    (hrest : ∀ c t, rest = c :: t → isxdigit c = false) :
    (ds ++ rest).takeWhile isxdigit = ds ∧ (ds ++ rest).dropWhile isxdigit = rest := by
  induction ds with
  | nil =>
    cases rest with
    | nil => simp
    | cons r t => simp [List.takeWhile, List.dropWhile, hrest r t rfl]
  | cons d ds ih =>
    have hd : isxdigit d = true := hds d (List.mem_cons_self _ _)
    have := ih (fun c hc => hds c (List.mem_cons_of_mem _ hc))
    simp [List.takeWhile, List.dropWhile, hd, this]

theorem skip_0x_digits (d : Char) (ds rest : List Char) (hds : ∀ c ∈ d :: ds, isxdigit c = true)
    (hrest : ∀ c t, rest = c :: t → c ≠ 'x' ∧ c ≠ 'X') :
    skip_0x (d :: ds ++ rest) = (false, d :: ds ++ rest) := by
  have hx : isxdigit 'x' = false := by decide
  have hX : isxdigit 'X' = false := by decide
  match ds, hds with
  | [], _ =>
    match rest, hrest with
    | [], _ => rfl
    | r :: t, hrest =>
      have := hrest r t rfl
      simp [skip_0x, this.1, this.2]
  | d2 :: t, hds =>
    have h2 : isxdigit d2 = true := hds d2 (by simp)
    simp [skip_0x, ne_of_isxdigit h2 hx, ne_of_isxdigit h2 hX]

theorem scan_X_digits (ds rest : List Char) (hne : ds ≠ [])
    (hds : ∀ c ∈ ds, isxdigit c = true)
    (hrest : ∀ c t, rest = c :: t → isxdigit c = false ∧ c ≠ 'x' ∧ c ≠ 'X')
    (hv : hexval ds < 2 ^ 32) : scan_X (ds ++ rest) = Scan.assigned (hexval ds) rest := by
  obtain ⟨d, ds, rfl⟩ := List.exists_cons_of_ne_nil hne
  have hd : isxdigit d = true := hds d (List.mem_cons_self _ _)
  have hsp : isspace d = false := isspace_of_isxdigit hd
  have hm : d ≠ '-' := ne_of_isxdigit hd (by decide)
  have hp : d ≠ '+' := ne_of_isxdigit hd (by decide)
  have h0x := skip_0x_digits d ds rest hds (fun c t h => (hrest c t h).2)
  have htd := takeWhile_isxdigit_append (d :: ds) rest hds (fun c t h => (hrest c t h).1)
  have hv64 : ¬ (2 ^ 64 ≤ hexval (d :: ds)) := by omega
  have hmod : hexval (d :: ds) % 2 ^ 32 = hexval (d :: ds) := Nat.mod_eq_of_lt hv
  have hdrop : List.dropWhile isspace (d :: ds ++ rest) = d :: ds ++ rest := by
    simp [List.dropWhile, hsp]
  have hsign : skip_sign (d :: ds ++ rest) = (false, d :: ds ++ rest) := by
    simp [skip_sign, hm, hp]
  unfold scan_X
  simp only [hdrop, hsign, h0x, htd.1, htd.2, strtoul_value, hv64, hmod]
  simp
  norm_num at hv
  exact hv

/-- C1: for every text `seg/off` of two non-empty runs of hexadecimal digits whose values fit
in 32 bits, `text_to_lsn` returns exactly `seg * (2^32 - 1 - 16*1024*1024) + off`, and that
number is below `2^64`, so nothing wrapped. -/
theorem text_to_lsn_formula (seg off : List Char) (hseg : seg ≠ []) (hoff : off ≠ [])
    (hs : ∀ c ∈ seg, isxdigit c = true) (ho : ∀ c ∈ off, isxdigit c = true)
    (h1 : hexval seg < 2 ^ 32) (h2 : hexval off < 2 ^ 32) :
    text_to_lsn (seg ++ '/' :: off)
        = Except.ok (hexval seg * (2 ^ 32 - 1 - 16 * 1024 * 1024) + hexval off) ∧
      hexval seg * (2 ^ 32 - 1 - 16 * 1024 * 1024) + hexval off < 2 ^ 64 := by
  have hslash : ∀ c t, '/' :: off = c :: t → isxdigit c = false ∧ c ≠ 'x' ∧ c ≠ 'X' := by
    intro c t h
    have hc : c = '/' := by injection h with h _; exact h.symm
    subst hc
    decide
  have e1 := scan_X_digits seg ('/' :: off) hseg hs hslash h1
  have e2 := scan_X_digits off [] hoff ho (fun c t h => by cases h) h2
  rw [List.append_nil] at e2
  have hbound : hexval seg * (2 ^ 32 - 1 - 16 * 1024 * 1024) + hexval off < 2 ^ 64 := by
    have : hexval seg * (2 ^ 32 - 1 - 16 * 1024 * 1024)
        ≤ (2 ^ 32 - 1) * (2 ^ 32 - 1 - 16 * 1024 * 1024) :=
      Nat.mul_le_mul_right _ (by omega)
    omega
  refine ⟨?_, hbound⟩
  unfold text_to_lsn sscanf_X_slash_X
  simp only [e1, e2, WALSEGMENTSIZE]
  norm_num at hbound ⊢
  exact hbound

/-- C1, at the text `0/16000000`: it decodes to `0x16000000`. -/
theorem text_to_lsn_formula_witness :
    hexval ['0'] < 2 ^ 32 ∧ hexval "16000000".toList < 2 ^ 32 ∧
      text_to_lsn "0/16000000".toList = Except.ok 0x16000000 ∧
      (0x16000000 : Nat) < 2 ^ 64 :=
  ⟨by decide, by decide,
    text_to_lsn_formula ['0'] "16000000".toList (by decide) (by decide) (by decide)
      (by decide) (by decide) (by decide)⟩

theorem skip_sign_split (s : List Char) :
    ∃ sg : List Char, s = sg ++ (skip_sign s).2 ∧ (sg = [] ∨ sg = ['+'] ∨ sg = ['-']) := by
  cases s with
  | nil => exact ⟨[], rfl, Or.inl rfl⟩
  | cons c t =>
    unfold skip_sign
    by_cases hm : c = '-'
    · exact ⟨['-'], by simp [hm], Or.inr (Or.inr rfl)⟩
    · by_cases hp : c = '+'
      · exact ⟨['+'], by simp [hp], Or.inr (Or.inl rfl)⟩
      · exact ⟨[], by simp [hm, hp], Or.inl rfl⟩

theorem skip_0x_split (s : List Char) :
    ∃ px : List Char, s = px ++ (skip_0x s).2 ∧
      ((px = [] ∧ (skip_0x s).1 = false) ∨
        ((px = ['0', 'x'] ∨ px = ['0', 'X']) ∧ (skip_0x s).1 = true)) := by
  match s with
  | [] => exact ⟨[], rfl, Or.inl ⟨rfl, rfl⟩⟩
  | [_] => exact ⟨[], rfl, Or.inl ⟨rfl, rfl⟩⟩
  | a :: b :: t =>
    unfold skip_0x
    by_cases h : a = '0' ∧ (b = 'x' ∨ b = 'X')
    · rcases h with ⟨ha, hb | hb⟩
      · exact ⟨['0', 'x'], by simp [ha, hb], Or.inr ⟨Or.inl rfl, by simp [ha, hb]⟩⟩
      · exact ⟨['0', 'X'], by simp [ha, hb], Or.inr ⟨Or.inr rfl, by simp [ha, hb]⟩⟩
    · exact ⟨[], by simp [h], Or.inl ⟨rfl, by simp [h]⟩⟩

theorem HexField_of_scan_X {s rest : List Char} {v : Nat}
    (h : scan_X s = Scan.assigned v rest) : HexField s rest := by
  unfold scan_X at h
  simp only at h
  split at h
  · cases h
  · split at h
    · cases h
    · rename_i hds
      injection h with _ hrest
      obtain ⟨sg, hsg, hsg3⟩ := skip_sign_split (s.dropWhile isspace)
      obtain ⟨px, hpx, hpx3⟩ := skip_0x_split (skip_sign (s.dropWhile isspace)).2
      have hpx4 : px = [] ∨ px = ['0', 'x'] ∨ px = ['0', 'X'] := by
        rcases hpx3 with ⟨h1, _⟩ | ⟨h1, _⟩
        · exact Or.inl h1
        · exact Or.inr h1
      have hnum : (skip_0x (skip_sign (s.dropWhile isspace)).2).2.takeWhile isxdigit ≠ [] ∨
          px ≠ [] := by
        rcases hpx3 with ⟨_, h2⟩ | ⟨h1, _⟩
        · left
          intro hnil
          exact hds ⟨hnil, h2⟩
        · right
          rcases h1 with h1 | h1 <;> rw [h1] <;> simp
      refine ⟨s.takeWhile isspace, sg, px,
        (skip_0x (skip_sign (s.dropWhile isspace)).2).2.takeWhile isxdigit, ?_,
        fun c hc => (List.mem_takeWhile_imp hc), hsg3, hpx4, hnum,
        fun c hc => (List.mem_takeWhile_imp hc)⟩
      rw [← hrest]
      simp only [List.append_assoc, List.takeWhile_append_dropWhile]
      rw [← hpx, ← hsg, List.takeWhile_append_dropWhile]

theorem LeadingHexFields_of_sscanf {text : List Char} (h : (sscanf_X_slash_X text).1 = 2) :
    LeadingHexFields text := by
  unfold sscanf_X_slash_X at h
  split at h
  · simp at h
  · simp at h
  · rename_i xlogid rest h1
    split at h
    · rename_i rest2
      split at h
      · rename_i xrecoff rest3 h2
        exact ⟨rest2, rest3, HexField_of_scan_X h1, HexField_of_scan_X h2⟩
      · simp at h
    · simp at h

theorem slash_mem_of_HexField {s mid : List Char} (h : HexField s ('/' :: mid)) : '/' ∈ s := by
  obtain ⟨ws, sg, px, ds, hs, _⟩ := h
  rw [hs]
  simp

/-- C9 (as amended): a text that does not begin with two `%X` fields separated by `/` (each:
white space, an optional sign, and then one or more hexadecimal digits, or `0x` and any number
of hexadecimal digits) makes `text_to_lsn` raise "invalid LSN format" and return no
position. -/
theorem text_to_lsn_rejects (text : List Char) (h : ¬ LeadingHexFields text) :
    text_to_lsn text = Except.error (PgError.invalid_LSN_format text) := by
  unfold text_to_lsn
  have hn : (sscanf_X_slash_X text).1 ≠ 2 := fun h2 => h (LeadingHexFields_of_sscanf h2)
  simp [hn]

/-- C9 (as amended), at a text without delimiter. -/
theorem text_to_lsn_rejects_witness :
    ¬ LeadingHexFields "16000000".toList ∧
      text_to_lsn "16000000".toList
        = Except.error (PgError.invalid_LSN_format "16000000".toList) :=
  have h : ¬ LeadingHexFields "16000000".toList := fun h => by
    obtain ⟨mid, rest, h1, _⟩ := h
    exact absurd (slash_mem_of_HexField h1) (by decide)
  ⟨h, text_to_lsn_rejects "16000000".toList h⟩

/-- C9 (as stated) fails: the text `0/1G` is not two hexadecimal fields separated by `/`
(the second field holds the character `G`), and `text_to_lsn` returns the position 1 for
it. -/
theorem text_to_lsn_accepts_trailing_text :
    two_hex_fields "0/1G".toList = false ∧ text_to_lsn "0/1G".toList = Except.ok 1 := by
  decide

theorem lsn_of_fields_eq (s o : Nat) (hs : s < 2 ^ 32) (ho : o < 2 ^ 32) :
    lsn_of_fields s o = s * 4278190079 + o := by
  unfold lsn_of_fields WALSEGMENTSIZE
  norm_num
  norm_num at hs ho
  omega

/-- C11: for 32-bit pairs whose offsets are both below `2^32 - 1 - 2^24`, the position that
`text_to_lsn` computes from the fields is strictly order-preserving and injective for the
lexicographic order on (segment, offset); `text_to_lsn` returns that position for every text
it accepts; and above the bound the order is lost: `0/FFFFFFFF` decodes above `1/0`. -/
theorem lsn_order_under_offset_bound (s1 o1 s2 o2 : Nat)
    (hs1 : s1 < 2 ^ 32) (hs2 : s2 < 2 ^ 32)
    (ho1 : o1 < 2 ^ 32 - 1 - 2 ^ 24) (ho2 : o2 < 2 ^ 32 - 1 - 2 ^ 24) :
    (lsn_of_fields s1 o1 < lsn_of_fields s2 o2 ↔ (s1 < s2 ∨ (s1 = s2 ∧ o1 < o2))) ∧
      (lsn_of_fields s1 o1 = lsn_of_fields s2 o2 ↔ (s1 = s2 ∧ o1 = o2)) ∧
      (∀ text, (sscanf_X_slash_X text).1 = 2 →
        text_to_lsn text = Except.ok
          (lsn_of_fields (sscanf_X_slash_X text).2.1 (sscanf_X_slash_X text).2.2)) ∧
      (text_to_lsn "0/FFFFFFFF".toList = Except.ok (lsn_of_fields 0 0xFFFFFFFF) ∧
        text_to_lsn "1/0".toList = Except.ok (lsn_of_fields 1 0) ∧
        lsn_of_fields 1 0 < lsn_of_fields 0 0xFFFFFFFF) := by
  norm_num at hs1 hs2 ho1 ho2
  rw [lsn_of_fields_eq s1 o1 (by norm_num; omega) (by norm_num; omega),
    lsn_of_fields_eq s2 o2 (by norm_num; omega) (by norm_num; omega)]
  refine ⟨by omega, by omega, ?_, by decide⟩
  intro text h
  unfold text_to_lsn lsn_of_fields
  simp [h]

/-- C11, at the pairs (1, 0) and (0, 0xFEFFFFFE). -/
theorem lsn_order_under_offset_bound_witness :
    (0xFEFFFFFE : Nat) < 2 ^ 32 - 1 - 2 ^ 24 ∧
      (lsn_of_fields 0 0xFEFFFFFE < lsn_of_fields 1 0 ↔
        ((0 : Nat) < 1 ∨ ((0 : Nat) = 1 ∧ (0xFEFFFFFE : Nat) < 0))) :=
  ⟨by decide,
    (lsn_order_under_offset_bound 0 0xFEFFFFFE 1 0 (by decide) (by decide) (by decide)
      (by decide)).1⟩

/-! ## Theorems: the loops of `check_replication_time_lag` -/

/-- A loop whose body rewrites only the descriptor of its own node, by a rule that does not
depend on the descriptors, rewrites exactly the descriptors of the nodes it visits. -/
theorem for_loop_set_info (g : Worker → Nat → BackendInfo → BackendInfo)
    (hg : ∀ w i b, g (w.set_info i b) = g w) (body : Nat → Worker → Worker)
    (hbody : ∀ i w, body i w = w.set_info i (g w i (w.backend_info i))) :
    ∀ (n lo : Nat) (w : Worker), for_loop body n lo w =
      { w with backend_info := fun k =>
          if lo ≤ k ∧ k < lo + n then g w k (w.backend_info k) else w.backend_info k } := by
  intro n
  induction n with
  | zero =>
    intro lo w
    simp only [for_loop]
    have : (fun k => if lo ≤ k ∧ k < lo + 0 then g w k (w.backend_info k)
        else w.backend_info k) = w.backend_info := by
      funext k
      have : ¬ (lo ≤ k ∧ k < lo + 0) := by omega
      simp [this]
    rw [this]
  | succ n ih =>
    intro lo w
    simp only [for_loop]
    rw [ih (lo + 1) (body lo w), hbody lo w, hg]
    simp only [Worker.set_info]
    congr 1
    funext k
    by_cases hk : k = lo
    · subst hk
      have h1 : ¬ (k + 1 ≤ k ∧ k < k + 1 + n) := by omega
      have h2 : k ≤ k ∧ k < k + (n + 1) := by omega
      simp [h1, h2]
    · have h3 : (lo + 1 ≤ k ∧ k < lo + 1 + n) ↔ (lo ≤ k ∧ k < lo + (n + 1)) := by omega
      by_cases h4 : lo ≤ k ∧ k < lo + (n + 1)
      · simp [h3, h4, Function.update_noteq hk]
      · have h5 : ¬ (lo + 1 ≤ k ∧ k < lo + 1 + n) := fun h => h4 (h3.mp h)
        simp [h4, h5, Function.update_noteq hk]

/-- A property of the state that every iteration keeps holds when the loop ends, with or
without an error. -/
theorem for_loop_try_invariant {σ ε : Type} (body : Nat → σ → σ × Option ε) (Q : σ → Prop)
    (hQ : ∀ i s, Q s → Q (body i s).1) :
    ∀ (n lo : Nat) (s : σ), Q s → Q (for_loop_try body n lo s).1 := by
  intro n
  induction n with
  | zero => intro lo s h; exact h
  | succ n ih =>
    intro lo s h
    have hb := hQ lo s h
    unfold for_loop_try
    rcases hr : body lo s with ⟨s1, _ | e⟩
    · rw [hr] at hb
      exact ih (lo + 1) s1 hb
    · rw [hr] at hb
      exact hb

/-- When the loop ends without an error, a property that each error-free iteration carries
from its index to the next holds at the end. -/
theorem for_loop_try_ok {σ ε : Type} (body : Nat → σ → σ × Option ε) (J : Nat → σ → Prop) :
    ∀ (n lo : Nat) (s : σ),
      (∀ i s, lo ≤ i → i < lo + n → J i s → (body i s).2 = none → J (i + 1) (body i s).1) →
      J lo s → (for_loop_try body n lo s).2 = none →
      J (lo + n) (for_loop_try body n lo s).1 := by
  intro n
  induction n with
  | zero => intro lo s _ h _; exact h
  | succ n ih =>
    intro lo s hstep h hres
    have hb := hstep lo s (Nat.le_refl _) (by omega) h
    unfold for_loop_try at hres ⊢
    rcases hr : body lo s with ⟨s1, _ | e⟩
    · rw [hr] at hb hres
      simp only at hres ⊢
      have := ih (lo + 1) s1 (fun i s hi1 hi2 => hstep i s (by omega) (by omega)) (hb rfl) hres
      rw [show lo + (n + 1) = lo + 1 + n by omega]
      exact this
    · rw [hr] at hres
      simp at hres

/-- When no iteration can raise, the loop ends without an error. -/
theorem for_loop_try_no_raise {σ ε : Type} (body : Nat → σ → σ × Option ε)
    (J : Nat → σ → Prop) :
    ∀ (n lo : Nat) (s : σ),
      (∀ i s, lo ≤ i → i < lo + n → J i s → (body i s).2 = none ∧ J (i + 1) (body i s).1) →
      J lo s → (for_loop_try body n lo s).2 = none := by
  intro n
  induction n with
  | zero => intro lo s _ _; rfl
  | succ n ih =>
    intro lo s hstep h
    have hb := hstep lo s (Nat.le_refl _) (by omega) h
    unfold for_loop_try
    rcases hr : body lo s with ⟨s1, _ | e⟩
    · rw [hr] at hb
      exact ih (lo + 1) s1 (fun i s hi1 hi2 => hstep i s (by omega) (by omega)) hb.2
    · rw [hr] at hb
      simp at hb

/-- When the iteration of some index in range raises in every state that the loop can reach
it with, the loop ends with an error, raised at that index or before it. -/
theorem for_loop_try_raises_at {σ ε : Type} (body : Nat → σ → σ × Option ε)
    (J : Nat → σ → Prop) (hJ : ∀ k s, J k s → J (k + 1) (body k s).1) (i : Nat)
    (hbad : ∀ s, J i s → (body i s).2 ≠ none) :
    ∀ (n lo : Nat) (s : σ), lo ≤ i → i < lo + n → J lo s →
      ∃ e k s1, (for_loop_try body n lo s).2 = some e ∧ lo ≤ k ∧ k ≤ i ∧ J k s1 ∧
        (body k s1).2 = some e := by
  intro n
  induction n with
  | zero => intro lo s h1 h2; omega
  | succ n ih =>
    intro lo s h1 h2 h
    unfold for_loop_try
    rcases hr : body lo s with ⟨s1, _ | e⟩
    · have hne : lo ≠ i := by
        intro hlo
        subst hlo
        exact hbad s h (by rw [hr])
      have hq1 : J (lo + 1) s1 := by
        have := hJ lo s h
        rw [hr] at this
        exact this
      obtain ⟨e, k, s2, he, hk1, hk2, hq, hb⟩ := ih (lo + 1) s1 (by omega) (by omega) hq1
      exact ⟨e, k, s2, he, by omega, hk2, hq, hb⟩
    · exact ⟨e, lo, s, rfl, Nat.le_refl _, h1, h, by rw [hr]⟩

theorem same_config_refl (w : Worker) : w.same_config w :=
  ⟨rfl, rfl, rfl, rfl, rfl, rfl, rfl⟩

theorem same_config_trans {a b c : Worker} (h1 : a.same_config b)
    (h2 : b.same_config c) : a.same_config c := by
  obtain ⟨a1, a2, a3, a4, a5, a6, a7⟩ := h1
  obtain ⟨b1, b2, b3, b4, b5, b6, b7⟩ := h2
  exact ⟨b1.trans a1, b2.trans a2, b3.trans a3, b4.trans a4, b5.trans a5, b6.trans a6,
    b7.trans a7⟩

theorem refresh_server_version_same (env : Backends) (i : Nat) (w : Worker) :
    w.same_config (refresh_server_version env i w) := by
  unfold refresh_server_version
  split
  · split
    · exact ⟨rfl, rfl, rfl, rfl, rfl, rfl, rfl⟩
    · exact same_config_refl w
  · exact same_config_refl w

theorem text_to_lsn_lt {text : List Char} {v : Nat} (h : text_to_lsn text = Except.ok v) :
    v < 2 ^ 64 := by
  unfold text_to_lsn at h
  simp only at h
  split at h
  · cases h
  · injection h with h
    rw [← h]
    exact Nat.mod_lt _ (by norm_num)

theorem get_query_result_location (env : Backends) (i : Nat) (q : String) :
    get_query_result env.location i q =
      match env.location i q with
      | DoQuery.raised => (-1, none)
      | DoQuery.result [] => (-1, none)
      | DoQuery.result (c :: rows) => (0, some (c :: rows)) := by
  unfold get_query_result
  rcases env.location i q with _ | rows
  · rfl
  · cases rows with
    | nil => simp
    | cons c rows =>
      simp only [List.length_cons]
      have : ¬ ((((rows.length + 1 : Nat)) : Int) ≤ 0) := by omega
      simp only [this, if_false]

/-- The sampling of an up node that has a connection, by the text to decode. -/
theorem sample_node_valid (env : Backends) (i : Nat) (st : Worker × Locals)
    (hv : st.1.VALID_BACKEND i = true) (hs : st.1.slots i = true) :
    sample_node env i st =
      match location_text
        (env.location i (location_query (refresh_server_version env i st.1) i)) with
      | some text =>
        match text_to_lsn text with
        | Except.ok v =>
          ((refresh_server_version env i st.1,
            { lsn := Function.update st.2.lsn i v,
              stat_rep_query := (choose_stat_rep_query (refresh_server_version env i st.1) i
                st.2.stat_rep_query) }), none)
        | Except.error e =>
          ((refresh_server_version env i st.1,
            { st.2 with stat_rep_query :=
                (choose_stat_rep_query (refresh_server_version env i st.1) i
                  st.2.stat_rep_query) }), some e)
      | none =>
        ((refresh_server_version env i st.1,
          { lsn := Function.update st.2.lsn i 0,
            stat_rep_query := (choose_stat_rep_query (refresh_server_version env i st.1) i
              st.2.stat_rep_query) }), none) := by
  unfold sample_node
  simp only [hv, hs, Bool.not_true, Bool.false_eq_true, if_false, get_query_result_location]
  rcases env.location i (location_query (refresh_server_version env i st.1) i) with _ | rows
  · rfl
  · match rows with
    | [] => rfl
    | none :: _ => rfl
    | some text :: _ => rfl

theorem sample_node_same (env : Backends) (i : Nat) (st : Worker × Locals) :
    st.1.same_config (sample_node env i st).1.1 := by
  by_cases hv : st.1.VALID_BACKEND i = true
  · by_cases hs : st.1.slots i = true
    · rw [sample_node_valid env i st hv hs]
      split
      · split <;> exact refresh_server_version_same env i st.1
      · exact refresh_server_version_same env i st.1
    · unfold sample_node
      simp only [hv, hs]
      exact same_config_refl _
  · unfold sample_node
    simp only [hv]
    exact same_config_refl _

theorem sample_node_lsn_lt (env : Backends) (i : Nat) (st : Worker × Locals)
    (h : ∀ k, st.2.lsn k < 2 ^ 64) : ∀ k, (sample_node env i st).1.2.lsn k < 2 ^ 64 := by
  have hupd : ∀ v, v < 2 ^ 64 → ∀ k, Function.update st.2.lsn i v k < 2 ^ 64 := by
    intro v hv k
    by_cases hk : k = i
    · subst hk; simpa using hv
    · rw [Function.update_noteq hk]; exact h k
  by_cases hv : st.1.VALID_BACKEND i = true
  · by_cases hs : st.1.slots i = true
    · rw [sample_node_valid env i st hv hs]
      split
      · split
        · rename_i v hd
          exact hupd v (text_to_lsn_lt hd)
        · exact h
      · exact hupd 0 (by norm_num)
    · unfold sample_node
      simp only [hv, hs]
      exact h
  · unfold sample_node
    simp only [hv]
    exact h

theorem clear_loop (n lo : Nat) (w : Worker) :
    for_loop clear_replication_state n lo w =
      { w with backend_info := fun k =>
          if lo ≤ k ∧ k < lo + n then clear_rule (w.backend_info k) else w.backend_info k } :=
  for_loop_set_info (fun _ _ b => clear_rule b) (fun _ _ _ => rfl) clear_replication_state
    (fun _ _ => rfl) n lo w

theorem fill_loop (status : Int) (rows : List StatRow) (n lo : Nat) (w : Worker) :
    for_loop (fill_replication_state status rows) n lo w =
      { w with backend_info := fun k =>
          if lo ≤ k ∧ k < lo + n then fill_rule status rows w k (w.backend_info k)
          else w.backend_info k } := by
  refine for_loop_set_info (fill_rule status rows) (fun _ _ _ => rfl)
    (fill_replication_state status rows) ?_ n lo w
  intro i w
  unfold fill_replication_state fill_rule clear_rule
  by_cases h1 : i = w.PRIMARY_NODE_ID
  · simp only [h1, if_true]
  · by_cases h2 : status = 0
    · simp only [h1, h2, if_true, if_false]
    · simp only [h1, h2, if_false]

theorem delay_loop (lsn : Nat → Nat) (n lo : Nat) (w : Worker) :
    for_loop (set_standby_delay lsn) n lo w =
      { w with backend_info := fun k =>
          if lo ≤ k ∧ k < lo + n then delay_rule lsn w k (w.backend_info k)
          else w.backend_info k } := by
  refine for_loop_set_info (delay_rule lsn) (fun _ _ _ => rfl) (set_standby_delay lsn) ?_ n lo w
  intro i w
  unfold set_standby_delay delay_rule
  by_cases h1 : w.VALID_BACKEND i = true
  · by_cases h2 : w.PRIMARY_NODE_ID = i
    · simp only [h1, h2, Bool.not_true, Bool.false_eq_true, if_true, if_false]
    · simp only [h1, h2, Bool.not_true, Bool.false_eq_true, if_true, if_false]
  · simp only [h1, Bool.not_eq_true] at h1 ⊢
    simp only [h1, Bool.not_false, if_true, Bool.false_eq_true, if_false, Worker.set_info,
      Function.update_eq_self]

theorem fill_from_rows_cases (len : Nat) (rows : List StatRow) :
    ∀ b : BackendInfo,
      (fill_from_rows len rows b).backend_application_name = b.backend_application_name ∧
      (fill_from_rows len rows b).standby_delay = b.standby_delay ∧
      (((fill_from_rows len rows b).replication_state = b.replication_state ∧
          (fill_from_rows len rows b).replication_sync_state = b.replication_sync_state) ∨
        ∃ r ∈ rows, r.application_name = b.backend_application_name ∧
          (fill_from_rows len rows b).replication_state = strlcpy (r.state.getD []) len ∧
          (fill_from_rows len rows b).replication_sync_state
            = strlcpy (r.sync_state.getD []) len) := by
  induction rows with
  | nil => intro b; exact ⟨rfl, rfl, Or.inl ⟨rfl, rfl⟩⟩
  | cons r rows ih =>
    intro b
    unfold fill_from_rows
    rw [List.foldl_cons]
    by_cases hm : r.application_name = b.backend_application_name
    · simp only [hm, if_true]
      have := ih { b with
        replication_state := strlcpy (r.state.getD []) len,
        replication_sync_state := strlcpy (r.sync_state.getD []) len }
      unfold fill_from_rows at this
      obtain ⟨h1, h2, h3⟩ := this
      refine ⟨h1, h2, Or.inr ?_⟩
      rcases h3 with ⟨h3, h4⟩ | ⟨r2, hr2, h5, h6, h7⟩
      · exact ⟨r, List.mem_cons_self _ _, hm, h3, h4⟩
      · exact ⟨r2, List.mem_cons_of_mem _ hr2, h5, h6, h7⟩
    · simp only [hm, if_false]
      have := ih b
      unfold fill_from_rows at this
      obtain ⟨h1, h2, h3⟩ := this
      refine ⟨h1, h2, ?_⟩
      rcases h3 with h3 | ⟨r2, hr2, h5, h6, h7⟩
      · exact Or.inl h3
      · exact Or.inr ⟨r2, List.mem_cons_of_mem _ hr2, h5, h6, h7⟩

theorem get_query_result_zero {α : Type} (do_query : Nat → String → DoQuery α) (i : Nat)
    (q : String) (h : (get_query_result do_query i q).1 = 0) :
    ∃ rows, do_query i q = DoQuery.result rows ∧ rows ≠ [] ∧
      (get_query_result do_query i q).2 = some rows := by
  unfold get_query_result at h ⊢
  rcases hq : do_query i q with _ | rows
  · rw [hq] at h; simp at h
  · rw [hq] at h
    simp only at h ⊢
    by_cases hl : (rows.length : Int) ≤ 0
    · simp [hl] at h
    · refine ⟨rows, rfl, ?_, by simp [hl]⟩
      intro hn
      subst hn
      simp at hl

/-! ## Theorems: `check_replication_time_lag` -/

theorem clear_loop_same (w : Worker) :
    (for_loop clear_replication_state w.NUM_BACKENDS 0 w).NUM_BACKENDS = w.NUM_BACKENDS ∧
    (for_loop clear_replication_state w.NUM_BACKENDS 0 w).VALID_BACKEND = w.VALID_BACKEND ∧
    (for_loop clear_replication_state w.NUM_BACKENDS 0 w).REAL_PRIMARY_NODE_ID
      = w.REAL_PRIMARY_NODE_ID ∧
    (for_loop clear_replication_state w.NUM_BACKENDS 0 w).PRIMARY_NODE_ID
      = w.PRIMARY_NODE_ID ∧
    (for_loop clear_replication_state w.NUM_BACKENDS 0 w).NAMEDATALEN = w.NAMEDATALEN ∧
    (for_loop clear_replication_state w.NUM_BACKENDS 0 w).slots = w.slots ∧
    ∀ k, (for_loop clear_replication_state w.NUM_BACKENDS 0 w).backend_info k =
      if k < w.NUM_BACKENDS then clear_rule (w.backend_info k) else w.backend_info k := by
  rw [clear_loop]
  refine ⟨rfl, rfl, rfl, rfl, rfl, rfl, ?_⟩
  intro k
  simp

/-- The sampling loop leaves the configuration and the node descriptors as the clearing loop
left them, and every entry of `lsn` stays below `2 ^ 64`. -/
theorem sampling_same (env : Backends) (lsn0 : Nat → Nat) (w : Worker) :
    (for_loop clear_replication_state w.NUM_BACKENDS 0 w).same_config
        (sampling env lsn0 w).1.1 ∧
      ∀ k, (sampling env lsn0 w).1.2.lsn k < 2 ^ 64 := by
  unfold sampling
  refine for_loop_try_invariant (sample_node env)
    (fun st => (for_loop clear_replication_state w.NUM_BACKENDS 0 w).same_config st.1 ∧
      ∀ k, st.2.lsn k < 2 ^ 64) ?_ w.NUM_BACKENDS 0 _ ?_
  · intro i st h
    exact ⟨same_config_trans h.1 (sample_node_same env i st),
      sample_node_lsn_lt env i st h.2⟩
  · exact ⟨same_config_refl _, fun k => Nat.mod_lt _ (by norm_num)⟩

theorem check_early (env : Backends) (lsn0 : Nat → Nat) (w : Worker)
    (h : w.NUM_BACKENDS ≤ 1 ∨ w.REAL_PRIMARY_NODE_ID < 0) :
    check_replication_time_lag env lsn0 w =
      { state := for_loop clear_replication_state w.NUM_BACKENDS 0 w, error := none } := by
  obtain ⟨h1, _, h3, _⟩ := clear_loop_same w
  unfold check_replication_time_lag
  simp only [h1, h3]
  by_cases hn : w.NUM_BACKENDS ≤ 1
  · simp only [hn, if_true]
  · have hr : w.REAL_PRIMARY_NODE_ID < 0 := h.resolve_left hn
    simp only [hn, hr, if_true, if_false]

theorem check_late (env : Backends) (lsn0 : Nat → Nat) (w : Worker)
    (hN : 2 ≤ w.NUM_BACKENDS) (hP : 0 ≤ w.REAL_PRIMARY_NODE_ID) :
    check_replication_time_lag env lsn0 w =
      match (sampling env lsn0 w).2 with
      | some e => { state := (sampling env lsn0 w).1.1, error := some e }
      | none =>
        { state := for_loop (set_standby_delay (sampled_lsn env lsn0 w))
            (sampling env lsn0 w).1.1.NUM_BACKENDS 0
            (correlate env (sampling env lsn0 w).1.1 (sampling env lsn0 w).1.2),
          error := none } := by
  obtain ⟨h1, _, h3, _⟩ := clear_loop_same w
  unfold check_replication_time_lag sampled_lsn
  simp only [h1, h3]
  have hn : ¬ w.NUM_BACKENDS ≤ 1 := by omega
  have hr : ¬ w.REAL_PRIMARY_NODE_ID < 0 := by omega
  simp only [hn, hr, if_false]
  rcases hs : sampling env lsn0 w with ⟨⟨w2, l⟩, _ | e⟩ <;> rfl

theorem check_error_eq (env : Backends) (lsn0 : Nat → Nat) (w : Worker)
    (hN : 2 ≤ w.NUM_BACKENDS) (hP : 0 ≤ w.REAL_PRIMARY_NODE_ID) :
    (check_replication_time_lag env lsn0 w).error = (sampling env lsn0 w).2 := by
  rw [check_late env lsn0 w hN hP]
  rcases (sampling env lsn0 w).2 with _ | e <;> rfl

/-- The status correlation step only rewrites node descriptors: each is kept, or (for a node
below `NUM_BACKENDS`, when the query was run on the primary's connection) rewritten by
`fill_rule` from the answer of that query. -/
theorem correlate_info (env : Backends) (w : Worker) (l : Locals) :
    ∃ B : Nat → BackendInfo, correlate env w l = { w with backend_info := B } ∧
      ∀ k, B k = w.backend_info k ∨
        (k < w.NUM_BACKENDS ∧ ∃ q, w.slots w.PRIMARY_NODE_ID = true ∧
          B k = fill_rule (get_query_result env.stat_replication w.PRIMARY_NODE_ID q).1
            ((get_query_result env.stat_replication w.PRIMARY_NODE_ID q).2.getD []) w k
            (w.backend_info k)) := by
  unfold correlate
  rcases l.stat_rep_query with _ | q
  · exact ⟨w.backend_info, rfl, fun k => Or.inl rfl⟩
  · by_cases hs : w.slots w.PRIMARY_NODE_ID = true
    · simp only [hs, if_true]
      rw [fill_loop]
      refine ⟨_, rfl, ?_⟩
      intro k
      by_cases hk : k < w.NUM_BACKENDS
      · exact Or.inr ⟨hk, q, trivial, by simp [hk]⟩
      · exact Or.inl (by simp [hk])
    · simp only [hs]
      exact ⟨w.backend_info, rfl, fun k => Or.inl rfl⟩

/-- In a cycle that reaches the lag step, the descriptor of a node below `NUM_BACKENDS` is
the cleared descriptor, rewritten by the correlation step or not, then by the lag step. -/
theorem final_info (env : Backends) (lsn0 : Nat → Nat) (w : Worker)
    (hN : 2 ≤ w.NUM_BACKENDS) (hP : 0 ≤ w.REAL_PRIMARY_NODE_ID)
    (herr : (sampling env lsn0 w).2 = none) (i : Nat) (hi : i < w.NUM_BACKENDS) :
    ∃ b : BackendInfo,
      (check_replication_time_lag env lsn0 w).state.backend_info i
        = delay_rule (sampled_lsn env lsn0 w) w i b ∧
      (b = clear_rule (w.backend_info i) ∨
        ∃ q, w.slots w.PRIMARY_NODE_ID = true ∧
          b = fill_rule (get_query_result env.stat_replication w.PRIMARY_NODE_ID q).1
            ((get_query_result env.stat_replication w.PRIMARY_NODE_ID q).2.getD []) w i
            (clear_rule (w.backend_info i))) := by
  obtain ⟨c1, c2, c3, c4, c5, c6, c7⟩ := clear_loop_same w
  obtain ⟨⟨s1, s2, s3, s4, s5, s6, s7⟩, _⟩ := sampling_same env lsn0 w
  rw [c1] at s1; rw [c2] at s2; rw [c4] at s4; rw [c5] at s5; rw [c6] at s6
  have hinfo : (sampling env lsn0 w).1.1.backend_info i = clear_rule (w.backend_info i) := by
    rw [s7, c7 i, if_pos hi]
  obtain ⟨B, hB, hBk⟩ := correlate_info env (sampling env lsn0 w).1.1 (sampling env lsn0 w).1.2
  rw [check_late env lsn0 w hN hP, herr]
  simp only
  rw [hB, delay_loop]
  simp only [s1, Nat.zero_le, Nat.zero_add, true_and, hi, if_true]
  refine ⟨B i, ?_, ?_⟩
  · unfold delay_rule
    simp only [s2, s4]
  · rcases hBk i with h | ⟨_, q, hq1, hq2⟩
    · left
      rw [h, hinfo]
    · right
      rw [s4, s6] at hq1
      refine ⟨q, hq1, ?_⟩
      rw [hq2, hinfo, s4]
      unfold fill_rule
      simp only [s4, s5]

/-- The delay that the lag step writes for an up node, as a clamped difference. -/
theorem delay_rule_standby_delay (lsn : Nat → Nat) (w : Worker) (i : Nat) (b : BackendInfo)
    (hv : w.VALID_BACKEND i = true) (hlt : lsn w.PRIMARY_NODE_ID < 2 ^ 64) :
    (((delay_rule lsn w i b).standby_delay : Nat) : Int)
      = (if i = w.PRIMARY_NODE_ID then 0
        else max 0 ((lsn w.PRIMARY_NODE_ID : Int) - (lsn i : Int))) := by
  unfold delay_rule
  simp only [hv, if_true]
  by_cases hpi : w.PRIMARY_NODE_ID = i
  · simp [hpi]
  · have hip : ¬ i = w.PRIMARY_NODE_ID := fun h => hpi h.symm
    simp only [hpi, hip, if_false]
    by_cases hgt : lsn w.PRIMARY_NODE_ID > lsn i
    · simp only [hgt, if_true]
      have hm : (lsn w.PRIMARY_NODE_ID - lsn i) % 2 ^ 64 = lsn w.PRIMARY_NODE_ID - lsn i :=
        Nat.mod_eq_of_lt (by omega)
      rw [hm, max_def]
      split <;> omega
    · simp only [hgt, if_false]
      rw [max_def]
      split <;> omega

theorem delay_rule_fields (lsn : Nat → Nat) (w : Worker) (i : Nat) (b : BackendInfo) :
    (delay_rule lsn w i b).replication_state = b.replication_state ∧
      (delay_rule lsn w i b).replication_sync_state = b.replication_sync_state ∧
      (delay_rule lsn w i b).backend_application_name = b.backend_application_name := by
  unfold delay_rule
  split
  · split <;> exact ⟨rfl, rfl, rfl⟩
  · exact ⟨rfl, rfl, rfl⟩

theorem sample_node_lsn_other (env : Backends) (i : Nat) (st : Worker × Locals) (j : Nat)
    (hj : j ≠ i) : (sample_node env i st).1.2.lsn j = st.2.lsn j := by
  by_cases hv : st.1.VALID_BACKEND i = true
  · by_cases hs : st.1.slots i = true
    · rw [sample_node_valid env i st hv hs]
      split
      · split
        · exact Function.update_noteq hj _ _
        · rfl
      · exact Function.update_noteq hj _ _
    · unfold sample_node
      simp only [hv, hs]
      rfl
  · unfold sample_node
    simp only [hv]
    rfl

theorem refresh_server_version_other (env : Backends) (i j : Nat) (w : Worker) (hj : j ≠ i) :
    (refresh_server_version env i w).server_version j = w.server_version j := by
  unfold refresh_server_version
  split
  · split
    · exact Function.update_noteq hj _ _
    · rfl
  · rfl

theorem refresh_server_version_self (env : Backends) (i : Nat) (a b : Worker)
    (h : a.server_version i = b.server_version i) :
    (refresh_server_version env i a).server_version i
      = (refresh_server_version env i b).server_version i := by
  unfold refresh_server_version
  rw [h]
  split
  · split
    · simp only [Function.update_same]
    · exact h
  · exact h

theorem refresh_server_version_primary (env : Backends) (i : Nat) (w : Worker) :
    (refresh_server_version env i w).PRIMARY_NODE_ID = w.PRIMARY_NODE_ID :=
  (refresh_server_version_same env i w).2.2.2.1

theorem location_answer_congr (env : Backends) (i : Nat) (a b : Worker)
    (hp : a.PRIMARY_NODE_ID = b.PRIMARY_NODE_ID)
    (hver : a.server_version i = b.server_version i) :
    env.location i (location_query (refresh_server_version env i a) i)
      = location_answer env b i := by
  unfold location_answer location_query
  rw [refresh_server_version_primary env i a, refresh_server_version_primary env i b, hp,
    refresh_server_version_self env i a b hver]

theorem sample_node_version_other (env : Backends) (i : Nat) (st : Worker × Locals) (j : Nat)
    (hj : j ≠ i) : (sample_node env i st).1.1.server_version j = st.1.server_version j := by
  by_cases hv : st.1.VALID_BACKEND i = true
  · by_cases hs : st.1.slots i = true
    · rw [sample_node_valid env i st hv hs]
      split
      · split <;> exact refresh_server_version_other env i j st.1 hj
      · exact refresh_server_version_other env i j st.1 hj
    · unfold sample_node
      simp only [hv, hs]
      rfl
  · unfold sample_node
    simp only [hv]
    rfl

/-- A visit keeps the loop in step: after the visit of node `k` the loop is about to visit
node `k + 1`. -/
theorem Visiting_step (env : Backends) (w : Worker) (k : Nat) (st : Worker × Locals)
    (h : Visiting w k st) : Visiting w (k + 1) (sample_node env k st).1 := by
  obtain ⟨h1, h2, h3, h4, h5⟩ := h
  obtain ⟨s1, s2, _, s4, _, s6, _⟩ := sample_node_same env k st
  refine ⟨s1.trans h1, s2.trans h2, s4.trans h3, s6.trans h4, ?_⟩
  intro j hj
  rw [sample_node_version_other env k st j (by omega)]
  exact h5 j (by omega)

/-- The visit of an up node that has a connection, by the answer of the node in this
cycle. -/
theorem sample_node_visit (env : Backends) (w : Worker) (i : Nat) (st : Worker × Locals)
    (h : Visiting w i st) (hv : w.VALID_BACKEND i = true) (hs : w.slots i = true) :
    ((sample_node env i st).2 = node_error env w i) ∧
      ((sample_node env i st).2 = none → (sample_node env i st).1.2.lsn i = position env w i) := by
  obtain ⟨_, h2, h3, h4, h5⟩ := h
  have hv1 : st.1.VALID_BACKEND i = true := by rw [h2]; exact hv
  have hs1 : st.1.slots i = true := by rw [h4]; exact hs
  have hans := location_answer_congr env i st.1 w h3 (h5 i (Nat.le_refl _))
  rw [sample_node_valid env i st hv1 hs1, hans]
  unfold node_error position
  simp only [hv, hs, if_true]
  rcases location_text (location_answer env w i) with _ | text
  · simp only [Function.update_same, implies_true, and_self]
  · rcases hd : text_to_lsn text with e | v
    · simp [hd]
    · simp [hd]

/-- The error of a visit is the error of the visited node. -/
theorem sample_node_raises (env : Backends) (w : Worker) (i : Nat) (st : Worker × Locals)
    (h : Visiting w i st) : (sample_node env i st).2 = node_error env w i := by
  by_cases hv : w.VALID_BACKEND i = true
  · by_cases hs : w.slots i = true
    · exact (sample_node_visit env w i st h hv hs).1
    · have hv1 : st.1.VALID_BACKEND i = true := by rw [h.2.1]; exact hv
      have hs1 : st.1.slots i = false := by rw [h.2.2.2.1]; simpa using hs
      unfold sample_node node_error
      simp [hv1, hs1, hv, hs]
  · have hv1 : st.1.VALID_BACKEND i = false := by rw [h.2.1]; simpa using hv
    unfold sample_node node_error
    simp [hv1, hv]

theorem Visiting_start (lsn0 : Nat → Nat) (w : Worker) :
    Visiting w 0 (for_loop clear_replication_state w.NUM_BACKENDS 0 w,
      { lsn := fun k => lsn0 k % 2 ^ 64, stat_rep_query := none }) := by
  rw [clear_loop]
  exact ⟨rfl, rfl, rfl, rfl, fun _ _ => rfl⟩

theorem text_to_lsn_error {text : List Char} {e : PgError}
    (h : text_to_lsn text = Except.error e) : e = PgError.invalid_LSN_format text := by
  unfold text_to_lsn at h
  simp only at h
  split at h
  · injection h with h; exact h.symm
  · cases h

/-- The error of a node that is up and has a connection comes from its answer: the text of
the answer is rejected by `text_to_lsn`. -/
theorem node_error_connected (env : Backends) (w : Worker) (k : Nat) (e : PgError)
    (hv : w.VALID_BACKEND k = true) (hs : w.slots k = true)
    (h : node_error env w k = some e) :
    ∃ text, location_text (location_answer env w k) = some text ∧
      text_to_lsn text = Except.error e ∧ e = PgError.invalid_LSN_format text := by
  unfold node_error at h
  simp only [hv, hs, if_true] at h
  rcases ht : location_text (location_answer env w k) with _ | text
  · rw [ht] at h; simp at h
  · rw [ht] at h
    rcases hd : text_to_lsn text with e2 | v
    · simp only [hd, Option.some.injEq] at h
      subst h
      exact ⟨text, rfl, hd, text_to_lsn_error hd⟩
    · simp [hd] at h

/-- C3 (as amended): in a cycle with at least 2 nodes and a designated primary in which the
up node `i` is the first up node without diagnostic connection,
`check_replication_time_lag` raises an error.  The error is "No persistent db connection for
the node `i`", unless an up node before `i` answered a text that `text_to_lsn` rejects, and
then it is "invalid LSN format" for such a text; it is the error for node `i` exactly when
the text of every answer before `i` decodes.  No standby delay is written in that cycle. -/
theorem missing_connection_raises (env : Backends) (lsn0 : Nat → Nat) (w : Worker)
    (hN : 2 ≤ w.NUM_BACKENDS) (hP : 0 ≤ w.REAL_PRIMARY_NODE_ID)
    (i : Nat) (hi : i < w.NUM_BACKENDS) (hv : w.VALID_BACKEND i = true)
    (hs : w.slots i = false)
    (hfirst : ∀ k, k < i → w.VALID_BACKEND k = true → w.slots k = true) :
    (∃ e, (check_replication_time_lag env lsn0 w).error = some e ∧
      (e = PgError.no_persistent_connection i ∨
        ∃ k text, k < i ∧ w.VALID_BACKEND k = true ∧
          location_text (location_answer env w k) = some text ∧
          text_to_lsn text = Except.error e ∧ e = PgError.invalid_LSN_format text)) ∧
      ((check_replication_time_lag env lsn0 w).error
          = some (PgError.no_persistent_connection i) ↔
        ∀ k, k < i → w.VALID_BACKEND k = true →
          ∀ text, location_text (location_answer env w k) = some text →
            ∃ v, text_to_lsn text = Except.ok v) ∧
      ∀ k, ((check_replication_time_lag env lsn0 w).state.backend_info k).standby_delay
        = (w.backend_info k).standby_delay := by
  obtain ⟨c1, c2, c3, c4, c5, c6, c7⟩ := clear_loop_same w
  obtain ⟨⟨s1, s2, s3, s4, s5, s6, s7⟩, _⟩ := sampling_same env lsn0 w
  have hnode : node_error env w i = some (PgError.no_persistent_connection i) := by
    unfold node_error
    simp [hv, hs]
  have hraise := for_loop_try_raises_at (sample_node env) (fun k st => Visiting w k st)
    (fun k st h => Visiting_step env w k st h) i
    (by
      intro st hvis
      rw [sample_node_raises env w i st hvis, hnode]
      simp)
    w.NUM_BACKENDS 0
    (for_loop clear_replication_state w.NUM_BACKENDS 0 w,
      { lsn := fun k => lsn0 k % 2 ^ 64, stat_rep_query := none })
    (Nat.zero_le _) (by omega) (Visiting_start lsn0 w)
  obtain ⟨e, k, st, he, _, hk, hvis, hb⟩ := hraise
  have he2 : (sampling env lsn0 w).2 = some e := he
  have herror : (check_replication_time_lag env lsn0 w).error = some e := by
    rw [check_error_eq env lsn0 w hN hP]; exact he2
  rw [sample_node_raises env w k st hvis] at hb
  have hprov : e = PgError.no_persistent_connection i ∨
      ∃ k text, k < i ∧ w.VALID_BACKEND k = true ∧
        location_text (location_answer env w k) = some text ∧
        text_to_lsn text = Except.error e ∧ e = PgError.invalid_LSN_format text := by
    by_cases hki : k = i
    · left
      rw [hki, hnode] at hb
      injection hb with hb
      exact hb.symm
    · right
      have hlt : k < i := by omega
      have hvk : w.VALID_BACKEND k = true := by
        by_contra hn
        unfold node_error at hb
        simp [hn] at hb
      obtain ⟨text, h1, h2, h3⟩ :=
        node_error_connected env w k e hvk (hfirst k hlt hvk) hb
      exact ⟨k, text, hlt, hvk, h1, h2, h3⟩
  refine ⟨⟨e, herror, hprov⟩, ⟨?_, ?_⟩, ?_⟩
  · intro hnamed kr hkr hvkr text htext
    rcases hd : text_to_lsn text with e2 | v
    swap
    · exact ⟨v, rfl⟩
    · exfalso
      have hnode2 : node_error env w kr = some e2 := by
        unfold node_error
        simp [hvkr, hfirst kr hkr hvkr, htext, hd]
      obtain ⟨e3, k3, st3, he3, _, hk3, hvis3, hb3⟩ :=
        for_loop_try_raises_at (sample_node env) (fun k st => Visiting w k st)
          (fun k st h => Visiting_step env w k st h) kr
          (by
            intro st hvis
            rw [sample_node_raises env w kr st hvis, hnode2]
            simp)
          w.NUM_BACKENDS 0
          (for_loop clear_replication_state w.NUM_BACKENDS 0 w,
            { lsn := fun k => lsn0 k % 2 ^ 64, stat_rep_query := none })
          (Nat.zero_le _) (by omega) (Visiting_start lsn0 w)
      have he4 : (sampling env lsn0 w).2 = some e3 := he3
      rw [check_error_eq env lsn0 w hN hP, he4] at hnamed
      injection hnamed with hnamed
      rw [sample_node_raises env w k3 st3 hvis3, hnamed] at hb3
      have hlt3 : k3 < i := by omega
      have hvk3 : w.VALID_BACKEND k3 = true := by
        by_contra hn
        unfold node_error at hb3
        simp [hn] at hb3
      obtain ⟨text3, _, _, h3⟩ := node_error_connected env w k3 _ hvk3
        (hfirst k3 hlt3 hvk3) hb3
      cases h3
  · intro hdec
    rcases hprov with h | ⟨k2, text, hk2, hvk2, h1, h2, _⟩
    · rw [herror, h]
    · obtain ⟨v, hv2⟩ := hdec k2 hk2 hvk2 text h1
      rw [hv2] at h2
      cases h2
  · intro k
    rw [check_late env lsn0 w hN hP, he2]
    simp only
    rw [s7, c7 k]
    split <;> rfl

/-- When every up node has a connection and every answer decodes (or is unusable, which
counts as position 0), the sampling loop ends without an error and leaves the decoded
positions in `lsn`. -/
theorem sampling_exact (env : Backends) (lsn0 : Nat → Nat) (w : Worker) (pos : Nat → Nat)
    (hslots : ∀ j, j < w.NUM_BACKENDS → w.VALID_BACKEND j = true → w.slots j = true)
    (hpos : ∀ j, j < w.NUM_BACKENDS → w.VALID_BACKEND j = true → ∀ q,
      (location_text (env.location j q) = none ∧ pos j = 0) ∨
        ∃ text, location_text (env.location j q) = some text ∧
          text_to_lsn text = Except.ok (pos j)) :
    (sampling env lsn0 w).2 = none ∧
      ∀ j, j < w.NUM_BACKENDS → w.VALID_BACKEND j = true →
        sampled_lsn env lsn0 w j = pos j := by
  obtain ⟨_, c2, _, _, _, c6, _⟩ := clear_loop_same w
  have hstep : ∀ i (st : Worker × Locals), 0 ≤ i → i < 0 + w.NUM_BACKENDS →
      ((for_loop clear_replication_state w.NUM_BACKENDS 0 w).same_config st.1 ∧
        ∀ j, j < i → w.VALID_BACKEND j = true → st.2.lsn j = pos j) →
      (sample_node env i st).2 = none ∧
        ((for_loop clear_replication_state w.NUM_BACKENDS 0 w).same_config
            (sample_node env i st).1.1 ∧
          ∀ j, j < i + 1 → w.VALID_BACKEND j = true →
            (sample_node env i st).1.2.lsn j = pos j) := by
    intro i st _ hi hJ
    obtain ⟨hcfg, hprev⟩ := hJ
    have hi2 : i < w.NUM_BACKENDS := by omega
    have hother : ∀ j, j < i + 1 → j ≠ i → w.VALID_BACKEND j = true →
        (sample_node env i st).1.2.lsn j = pos j := by
      intro j hj hji hvj
      rw [sample_node_lsn_other env i st j hji]
      exact hprev j (by omega) hvj
    by_cases hv : w.VALID_BACKEND i = true
    · have hv1 : st.1.VALID_BACKEND i = true := by rw [hcfg.2.1, c2]; exact hv
      have hs1 : st.1.slots i = true := by
        rw [hcfg.2.2.2.2.2.1, c6]; exact hslots i hi2 hv
      have hself : (sample_node env i st).2 = none ∧
          (sample_node env i st).1.2.lsn i = pos i := by
        rw [sample_node_valid env i st hv1 hs1]
        rcases hpos i hi2 hv (location_query (refresh_server_version env i st.1) i) with
          ⟨h1, h2⟩ | ⟨text, h1, h2⟩
        · simp only [h1, Function.update_same, h2, and_self]
        · simp only [h1, h2, Function.update_same, and_self]
      refine ⟨hself.1, same_config_trans hcfg (sample_node_same env i st), ?_⟩
      intro j hj hvj
      by_cases hji : j = i
      · rw [hji]; exact hself.2
      · exact hother j hj hji hvj
    · have hv1 : st.1.VALID_BACKEND i = false := by
        rw [hcfg.2.1, c2]; simpa using hv
      have hskip : sample_node env i st = (st, none) := by
        unfold sample_node
        simp [hv1]
      refine ⟨by rw [hskip], same_config_trans hcfg (sample_node_same env i st), ?_⟩
      intro j hj hvj
      by_cases hji : j = i
      · rw [hji] at hvj; exact absurd hvj hv
      · exact hother j hj hji hvj
  have h0 : (for_loop clear_replication_state w.NUM_BACKENDS 0 w).same_config
        (for_loop clear_replication_state w.NUM_BACKENDS 0 w) ∧
      ∀ j, j < 0 → w.VALID_BACKEND j = true → lsn0 j % 2 ^ 64 = pos j :=
    ⟨same_config_refl _, fun j hj => absurd hj (Nat.not_lt_zero _)⟩
  have hnone : (sampling env lsn0 w).2 = none :=
    for_loop_try_no_raise (sample_node env)
      (fun k st => (for_loop clear_replication_state w.NUM_BACKENDS 0 w).same_config st.1 ∧
        ∀ j, j < k → w.VALID_BACKEND j = true → st.2.lsn j = pos j)
      w.NUM_BACKENDS 0 _ hstep h0
  have key := for_loop_try_ok (sample_node env)
    (fun k st => (for_loop clear_replication_state w.NUM_BACKENDS 0 w).same_config st.1 ∧
      ∀ j, j < k → w.VALID_BACKEND j = true → st.2.lsn j = pos j)
    w.NUM_BACKENDS 0 _ (fun i st h1 h2 hJ _ => (hstep i st h1 h2 hJ).2) h0 hnone
  rw [Nat.zero_add] at key
  exact ⟨hnone, key.2⟩

/-- C8 (as amended): in a cycle with at least 2 nodes whose primary is an up node, where
every up node has a connection, the log location query of the up node `f` fails (`do_query`
raises, or returns no row, or returns a null value) and the answer of every other up node
`j` decodes to `pos j`: `get_query_result` returns `-1` without an error escaping when
`do_query` raises or returns no row, and returns `0` with the null value when the value is
null; `check_replication_time_lag` raises no error, the position of `f` is 0, and the
standby delay of every up node is the clamped difference of this cycle's positions. -/
theorem query_failure_isolated (env : Backends) (lsn0 : Nat → Nat) (w : Worker)
    (hN : 2 ≤ w.NUM_BACKENDS) (hP : 0 ≤ w.REAL_PRIMARY_NODE_ID)
    (hPN : w.PRIMARY_NODE_ID < w.NUM_BACKENDS)
    (hPv : w.VALID_BACKEND w.PRIMARY_NODE_ID = true)
    (hslots : ∀ j, j < w.NUM_BACKENDS → w.VALID_BACKEND j = true → w.slots j = true)
    (f : Nat) (hf : f < w.NUM_BACKENDS) (hfv : w.VALID_BACKEND f = true)
    (hfail : ∀ q, env.location f q = DoQuery.raised ∨ env.location f q = DoQuery.result [] ∨
      ∃ rows, env.location f q = DoQuery.result (none :: rows))
    (pos : Nat → Nat)
    (hothers : ∀ j, j < w.NUM_BACKENDS → w.VALID_BACKEND j = true → j ≠ f → ∀ q,
      ∃ text rows, env.location j q = DoQuery.result (some text :: rows) ∧
        text_to_lsn text = Except.ok (pos j)) :
    (∀ q, env.location f q = DoQuery.raised ∨ env.location f q = DoQuery.result [] →
        get_query_result env.location f q = (-1, none)) ∧
      (∀ q rows, env.location f q = DoQuery.result (none :: rows) →
        get_query_result env.location f q = (0, some (none :: rows))) ∧
      (check_replication_time_lag env lsn0 w).error = none ∧
      sampled_lsn env lsn0 w f = 0 ∧
      ∀ j, j < w.NUM_BACKENDS → w.VALID_BACKEND j = true →
        ((((check_replication_time_lag env lsn0 w).state.backend_info j).standby_delay : Nat)
            : Int)
          = (if j = w.PRIMARY_NODE_ID then 0
            else max 0 (((if w.PRIMARY_NODE_ID = f then 0 else pos w.PRIMARY_NODE_ID : Nat) : Int)
              - ((if j = f then 0 else pos j : Nat) : Int))) := by
  have hpos : ∀ j, j < w.NUM_BACKENDS → w.VALID_BACKEND j = true → ∀ q,
      (location_text (env.location j q) = none ∧ (if j = f then 0 else pos j) = 0) ∨
        ∃ text, location_text (env.location j q) = some text ∧
          text_to_lsn text = Except.ok (if j = f then 0 else pos j) := by
    intro j hj hvj q
    by_cases hjf : j = f
    · left
      subst hjf
      refine ⟨?_, by simp⟩
      rcases hfail q with h | h | ⟨rows, h⟩ <;> rw [h] <;> rfl
    · right
      obtain ⟨text, rows, h1, h2⟩ := hothers j hj hvj hjf q
      exact ⟨text, by rw [h1]; rfl, by simp only [hjf, if_false]; exact h2⟩
  obtain ⟨hnone, hexact⟩ :=
    sampling_exact env lsn0 w (fun j => if j = f then 0 else pos j) hslots hpos
  obtain ⟨_, hlt⟩ := sampling_same env lsn0 w
  refine ⟨?_, ?_, ?_, ?_, ?_⟩
  · intro q h
    rw [get_query_result_location]
    rcases h with h | h <;> rw [h]
  · intro q rows h
    rw [get_query_result_location, h]
  · rw [check_error_eq env lsn0 w hN hP]; exact hnone
  · rw [hexact f hf hfv]; simp
  · intro j hj hvj
    obtain ⟨b, hb, _⟩ := final_info env lsn0 w hN hP hnone j hj
    have hltP : sampled_lsn env lsn0 w w.PRIMARY_NODE_ID < 2 ^ 64 := hlt _
    rw [hb, delay_rule_standby_delay (sampled_lsn env lsn0 w) w j b hvj hltP, hexact j hj hvj,
      hexact w.PRIMARY_NODE_ID hPN hPv]

/-- C10: after every run of `check_replication_time_lag`, however it ends, the two
replication state fields of every node are blank, unless the run ended without an error, the
node is not the primary, and the `pg_stat_replication` query run on the primary's connection
in this cycle returned a row whose application name is the node's, from which the two fields
are copied.  Nothing of the previous content of the fields enters the result. -/
theorem replication_state_fresh (env : Backends) (lsn0 : Nat → Nat) (w : Worker)
    (i : Nat) (hi : i < w.NUM_BACKENDS) :
    (((check_replication_time_lag env lsn0 w).state.backend_info i).replication_state = [] ∧
        ((check_replication_time_lag env lsn0 w).state.backend_info i).replication_sync_state
          = []) ∨
      (i ≠ w.PRIMARY_NODE_ID ∧ (check_replication_time_lag env lsn0 w).error = none ∧
        w.slots w.PRIMARY_NODE_ID = true ∧
        ∃ q rows r, env.stat_replication w.PRIMARY_NODE_ID q = DoQuery.result rows ∧
          r ∈ rows ∧ r.application_name = (w.backend_info i).backend_application_name ∧
          ((check_replication_time_lag env lsn0 w).state.backend_info i).replication_state
            = strlcpy (r.state.getD []) w.NAMEDATALEN ∧
          ((check_replication_time_lag env lsn0 w).state.backend_info i).replication_sync_state
            = strlcpy (r.sync_state.getD []) w.NAMEDATALEN) := by
  obtain ⟨c1, c2, c3, c4, c5, c6, c7⟩ := clear_loop_same w
  have hclear : (for_loop clear_replication_state w.NUM_BACKENDS 0 w).backend_info i
      = clear_rule (w.backend_info i) := by rw [c7 i, if_pos hi]
  by_cases hearly : w.NUM_BACKENDS ≤ 1 ∨ w.REAL_PRIMARY_NODE_ID < 0
  · left
    rw [check_early env lsn0 w hearly]
    simp only [hclear]
    exact ⟨rfl, rfl⟩
  · have hN : 2 ≤ w.NUM_BACKENDS := by
      by_contra h
      exact hearly (Or.inl (by omega))
    have hP : 0 ≤ w.REAL_PRIMARY_NODE_ID := by
      by_contra h
      exact hearly (Or.inr (by omega))
    rcases herr : (sampling env lsn0 w).2 with _ | e
    · obtain ⟨b, hb, hcases⟩ := final_info env lsn0 w hN hP herr i hi
      obtain ⟨d1, d2, _⟩ := delay_rule_fields (sampled_lsn env lsn0 w) w i b
      rw [hb, d1, d2]
      rcases hcases with h | ⟨q, hslot, h⟩
      · left
        rw [h]
        exact ⟨rfl, rfl⟩
      · unfold fill_rule at h
        by_cases hip : i = w.PRIMARY_NODE_ID
        · left
          rw [h, if_pos hip]
          exact ⟨rfl, rfl⟩
        · rw [if_neg hip] at h
          by_cases hst : (get_query_result env.stat_replication w.PRIMARY_NODE_ID q).1 = 0
          · rw [if_pos hst] at h
            obtain ⟨rows, hrows, _, hres⟩ :=
              get_query_result_zero env.stat_replication w.PRIMARY_NODE_ID q hst
            rw [hres] at h
            simp only [Option.getD_some] at h
            obtain ⟨_, _, hf⟩ :=
              fill_from_rows_cases w.NAMEDATALEN rows
                (clear_rule (clear_rule (w.backend_info i)))
            rw [← h] at hf
            rcases hf with ⟨h1, h2⟩ | ⟨r, hr, h1, h2, h3⟩
            · left
              exact ⟨h1, h2⟩
            · right
              refine ⟨hip, ?_, hslot, q, rows, r, hrows, hr, h1, h2, h3⟩
              rw [check_error_eq env lsn0 w hN hP]
              exact herr
          · left
            rw [h, if_neg hst]
            exact ⟨rfl, rfl⟩
    · left
      obtain ⟨⟨_, _, _, _, _, _, s7⟩, _⟩ := sampling_same env lsn0 w
      rw [check_late env lsn0 w hN hP, herr]
      simp only
      rw [s7, hclear]
      exact ⟨rfl, rfl⟩

/-- C3 (as stated) fails: in scenario A, where the up node 2 has no diagnostic connection,
`check_replication_time_lag` raises "No persistent db connection for the node 2", and the
lag of standby A is not computed: its `standby_delay` is still 0, not `0x1000000`. -/
theorem scenario_A_raises :
    scenario_A.VALID_BACKEND 2 = true ∧ scenario_A.slots 2 = false ∧
      (check_replication_time_lag scenario_A_backends (fun _ => 0) scenario_A).error
        = some (PgError.no_persistent_connection 2) ∧
      ((check_replication_time_lag scenario_A_backends (fun _ => 0)
        scenario_A).state.backend_info 1).standby_delay ≠ 0x1000000 := by
  decide

/-- C3 (as amended), at scenario A: node 2 is the first up node without connection, the
answers of nodes 0 and 1 decode, and the error raised is the one for node 2. -/
theorem missing_connection_raises_witness :
    2 ≤ scenario_A.NUM_BACKENDS ∧ scenario_A.VALID_BACKEND 2 = true ∧
      scenario_A.slots 2 = false ∧
      (check_replication_time_lag scenario_A_backends (fun _ => 0) scenario_A).error
        = some (PgError.no_persistent_connection 2) :=
  ⟨by decide, by decide, by decide,
    (missing_connection_raises scenario_A_backends (fun _ => 0) scenario_A (by decide)
      (by decide) 2 (by decide) (by decide) (by decide) (by decide)).2.1.mpr
      (by
        intro k hk _ text ht
        have h0 : location_text (location_answer scenario_A_backends scenario_A 0)
            = some "0/16000000".toList := by decide
        have h1 : location_text (location_answer scenario_A_backends scenario_A 1)
            = some "0/15000000".toList := by decide
        interval_cases k
        · rw [h0] at ht
          injection ht with ht
          subst ht
          exact ⟨0x16000000, by decide⟩
        · rw [h1] at ht
          injection ht with ht
          subst ht
          exact ⟨0x15000000, by decide⟩)⟩

/-- C8 (as stated) fails: when standby B answers the log location query with a null value,
`get_query_result` returns 0 (success) with that row, not failure; the cycle still ends
without an error. -/
theorem null_value_is_not_a_failure :
    get_query_result scenario_null_backends.location 2 "SELECT pg_last_wal_replay_lsn()"
        = (0, some [none]) ∧
      (check_replication_time_lag scenario_null_backends (fun _ => 0)
        scenario_A_connected).error = none := by
  decide

/-- C8 (as amended), at scenario A with every node connected, where the query to standby B
raises. -/
theorem query_failure_isolated_witness :
    (check_replication_time_lag scenario_A_backends (fun _ => 0)
        scenario_A_connected).error = none ∧
      sampled_lsn scenario_A_backends (fun _ => 0) scenario_A_connected 2 = 0 := by
  have h := query_failure_isolated scenario_A_backends (fun _ => 0) scenario_A_connected
    (by decide) (by decide) (by decide) (by decide) (fun _ _ _ => rfl) 2 (by decide)
    (by decide) (fun _ => Or.inl rfl) scenario_A_positions
    (by
      intro j hj _ hne q
      have hj3 : j < 3 := hj
      interval_cases j
      · exact ⟨"0/16000000".toList, [], rfl, by decide⟩
      · exact ⟨"0/15000000".toList, [], rfl, by decide⟩
      · exact absurd rfl hne)
  exact ⟨h.2.2.1, h.2.2.2.1⟩

/-- C10, at standby A of scenario A with every node connected. -/
theorem replication_state_fresh_witness :
    1 < scenario_A_connected.NUM_BACKENDS ∧
    ((((check_replication_time_lag scenario_A_backends (fun _ => 0)
          scenario_A_connected).state.backend_info 1).replication_state = [] ∧
        ((check_replication_time_lag scenario_A_backends (fun _ => 0)
          scenario_A_connected).state.backend_info 1).replication_sync_state = []) ∨
      (1 ≠ scenario_A_connected.PRIMARY_NODE_ID ∧
        (check_replication_time_lag scenario_A_backends (fun _ => 0)
          scenario_A_connected).error = none ∧
        scenario_A_connected.slots scenario_A_connected.PRIMARY_NODE_ID = true ∧
        ∃ q rows r, scenario_A_backends.stat_replication scenario_A_connected.PRIMARY_NODE_ID q
            = DoQuery.result rows ∧
          r ∈ rows ∧
          r.application_name = (scenario_A_connected.backend_info 1).backend_application_name ∧
          ((check_replication_time_lag scenario_A_backends (fun _ => 0)
            scenario_A_connected).state.backend_info 1).replication_state
            = strlcpy (r.state.getD []) scenario_A_connected.NAMEDATALEN ∧
          ((check_replication_time_lag scenario_A_backends (fun _ => 0)
            scenario_A_connected).state.backend_info 1).replication_sync_state
            = strlcpy (r.sync_state.getD []) scenario_A_connected.NAMEDATALEN)) :=
  ⟨by decide,
    replication_state_fresh scenario_A_backends (fun _ => 0) scenario_A_connected 1 (by decide)⟩

namespace Recovery

/-! ## Theorems: `recovery.c` -/

theorem Frame_refl (s : State) : Frame s s := ⟨rfl, rfl, fun _ => rfl⟩

theorem Frame_trans {a b c : State} (h1 : Frame a b) (h2 : Frame b c) : Frame a c :=
  ⟨h2.1.trans h1.1, h2.2.1.trans h1.2.1, fun m => (h2.2.2 m).trans (h1.2.2 m)⟩

theorem failback_requests_emit (m : Nat) (s : State) (e : Event) :
    failback_requests m (s.emit e).trace =
      failback_requests m s.trace + (if e = Event.send_failback_request m then 1 else 0) := by
  unfold failback_requests State.emit
  simp only [List.count_append, List.count_singleton]
  by_cases h : e = Event.send_failback_request m
  · simp [h]
  · have : ¬ (Event.send_failback_request m = e) := fun h2 => h h2.symm
    simp [h, this]

theorem Frame_emit (s : State) (e : Event) (h : ∀ m, e ≠ Event.send_failback_request m) :
    Frame s (s.emit e) := by
  refine ⟨rfl, rfl, fun m => ?_⟩
  rw [failback_requests_emit, if_neg (h m), Nat.add_zero]

/-- The quiesce loop with `n` polls left: it returns 0 at the first poll whose reading is 0,
after one `sleep(3)` per earlier poll; it returns 1 after `n` polls and `n` sleeps when no
reading is 0. -/
theorem wait_connection_closed_loop_spec (env : Outside) :
    ∀ (n : Nat) (s : State),
      (∀ k, k < n → env.conn_counter (s.reads + k) = 0 →
        (∀ j, j < k → env.conn_counter (s.reads + j) ≠ 0) →
        wait_connection_closed_loop env n s =
          (0, { s with reads := s.reads + k + 1,
                       trace := s.trace ++ List.replicate k (Event.sleep 3) })) ∧
      ((∀ k, k < n → env.conn_counter (s.reads + k) ≠ 0) →
        wait_connection_closed_loop env n s =
          (1, { s with reads := s.reads + n,
                       trace := s.trace ++ List.replicate n (Event.sleep 3) })) := by
  intro n
  induction n with
  | zero =>
    intro s
    refine ⟨fun k hk => absurd hk (Nat.not_lt_zero _), fun _ => ?_⟩
    simp [wait_connection_closed_loop]
  | succ n ih =>
    intro s
    obtain ⟨ih1, ih2⟩ := ih ({ s with reads := s.reads + 1 }.emit (Event.sleep 3))
    constructor
    · intro k hk hz hbefore
      unfold wait_connection_closed_loop
      cases k with
      | zero =>
        have h0 : env.conn_counter s.reads = 0 := by simpa using hz
        simp [h0]
      | succ k =>
        have h0 : env.conn_counter s.reads ≠ 0 := by simpa using hbefore 0 (by omega)
        rw [if_neg h0]
        rw [ih1 k (by omega)
          (by simp only [State.emit]; rw [show s.reads + 1 + k = s.reads + (k + 1) by omega]
              exact hz)
          (by
            intro j hj
            simp only [State.emit]
            rw [show s.reads + 1 + j = s.reads + (j + 1) by omega]
            exact hbefore (j + 1) (by omega))]
        simp only [State.emit, List.append_assoc, List.singleton_append, List.replicate_succ,
          Prod.mk.injEq, true_and]
        congr 1
        omega
    · intro hall
      unfold wait_connection_closed_loop
      have h0 : env.conn_counter s.reads ≠ 0 := by simpa using hall 0 (by omega)
      rw [if_neg h0]
      rw [ih2 (by
        intro k hk
        simp only [State.emit]
        rw [show s.reads + 1 + k = s.reads + (k + 1) by omega]
        exact hall (k + 1) (by omega))]
      simp only [State.emit, List.append_assoc, List.singleton_append, List.replicate_succ,
        Prod.mk.injEq, true_and]
      congr 1
      omega

theorem wait_connection_closed_loop_summary (env : Outside) :
    ∀ (n : Nat) (s : State),
      Frame s (wait_connection_closed_loop env n s).2 ∧
      (wait_connection_closed_loop env n s).2.execs = s.execs ∧
      (wait_connection_closed_loop env n s).2.logins = s.logins ∧
      ((wait_connection_closed_loop env n s).1 = 0 ∨
        (wait_connection_closed_loop env n s).1 = 1) ∧
      ((wait_connection_closed_loop env n s).1 = 0 ↔
        ∃ k, k < n ∧ env.conn_counter (s.reads + k) = 0) := by
  intro n
  induction n with
  | zero =>
    intro s
    refine ⟨Frame_refl s, rfl, rfl, Or.inr rfl, ?_⟩
    simp [wait_connection_closed_loop]
  | succ n ih =>
    intro s
    unfold wait_connection_closed_loop
    by_cases h0 : env.conn_counter s.reads = 0
    · rw [if_pos h0]
      exact ⟨⟨rfl, rfl, fun _ => rfl⟩, rfl, rfl, Or.inl rfl,
        ⟨fun _ => ⟨0, by omega, by simpa using h0⟩, fun _ => rfl⟩⟩
    · rw [if_neg h0]
      obtain ⟨f, e, l, c, hiff⟩ := ih ({ s with reads := s.reads + 1 }.emit (Event.sleep 3))
      have f0 : Frame s ({ s with reads := s.reads + 1 }.emit (Event.sleep 3)) :=
        @Frame_trans s { s with reads := s.reads + 1 } _ ⟨rfl, rfl, fun _ => rfl⟩
          (Frame_emit { s with reads := s.reads + 1 } (Event.sleep 3) (fun m h => by cases h))
      refine ⟨Frame_trans f0 f, e, l, c, ?_⟩
      rw [hiff]
      simp only [State.emit]
      constructor
      · rintro ⟨k, hk, hz⟩
        exact ⟨k + 1, by omega, by rw [show s.reads + (k + 1) = s.reads + 1 + k by omega]; exact hz⟩
      · rintro ⟨k, hk, hz⟩
        cases k with
        | zero => exact absurd (by simpa using hz) h0
        | succ k =>
          exact ⟨k, by omega, by rw [show s.reads + 1 + k = s.reads + (k + 1) by omega]; exact hz⟩

theorem login_frame (cfg : PoolConfig) (env : Outside) (backend : BackendInfo) (s : State) :
    Frame s (login cfg env backend s).2 ∧ (login cfg env backend s).2.execs = s.execs ∧
      (login cfg env backend s).2.reads = s.reads ∧
      (login cfg env backend s).2.logins = s.logins + 1 ∧
      (login cfg env backend s).1 = env.login s.logins := by
  unfold login
  refine ⟨?_, rfl, rfl, rfl, rfl⟩
  exact @Frame_trans s { s with logins := s.logins + 1 } _ ⟨rfl, rfl, fun _ => rfl⟩
    (Frame_emit _ _ (fun m h => by cases h))

theorem check_postmaster_started_loop_summary (cfg : PoolConfig) (env : Outside)
    (backend : BackendInfo) :
    ∀ (n : Nat) (s : State),
      Frame s (check_postmaster_started_loop cfg env backend n s).2 ∧
      (check_postmaster_started_loop cfg env backend n s).2.execs = s.execs ∧
      (check_postmaster_started_loop cfg env backend n s).2.reads = s.reads ∧
      ((check_postmaster_started_loop cfg env backend n s).1 = 0 ∨
        (check_postmaster_started_loop cfg env backend n s).1 = 1) ∧
      ((check_postmaster_started_loop cfg env backend n s).1 = 0 ↔
        ∃ k, k < n ∧ env.login (s.logins + k) = ConnStatusType.CONNECTION_OK) := by
  intro n
  induction n with
  | zero =>
    intro s
    refine ⟨Frame_refl s, rfl, rfl, Or.inr rfl, ?_⟩
    simp [check_postmaster_started_loop]
  | succ n ih =>
    intro s
    obtain ⟨lf, le, lr, ll, lv⟩ := login_frame cfg env backend s
    have f1 : Frame s ((login cfg env backend s).2.emit (Event.PQfinish (some s.logins))) :=
      Frame_trans lf (Frame_emit _ _ (fun m h => by cases h))
    unfold check_postmaster_started_loop
    simp only [lv]
    by_cases h0 : env.login s.logins = ConnStatusType.CONNECTION_OK
    · rw [if_pos h0]
      exact ⟨f1, le, lr, Or.inl rfl, ⟨fun _ => ⟨0, by omega, by simpa using h0⟩, fun _ => rfl⟩⟩
    · rw [if_neg h0]
      obtain ⟨f, e, r, c, hiff⟩ := ih
        (((login cfg env backend s).2.emit (Event.PQfinish (some s.logins))).emit (Event.sleep 3))
      have f2 := Frame_trans f1 (Frame_emit
        ((login cfg env backend s).2.emit (Event.PQfinish (some s.logins))) (Event.sleep 3)
        (fun m h => by cases h))
      refine ⟨Frame_trans f2 f, e.trans le, r.trans lr, c, ?_⟩
      rw [hiff]
      have hl : (((login cfg env backend s).2.emit (Event.PQfinish (some s.logins))).emit
          (Event.sleep 3)).logins = s.logins + 1 := ll
      rw [hl]
      constructor
      · rintro ⟨k, hk, hz⟩
        exact ⟨k + 1, by omega, by rw [show s.logins + (k + 1) = s.logins + 1 + k by omega]; exact hz⟩
      · rintro ⟨k, hk, hz⟩
        cases k with
        | zero => exact absurd (by simpa using hz) h0
        | succ k =>
          exact ⟨k, by omega, by rw [show s.logins + 1 + k = s.logins + (k + 1) by omega]; exact hz⟩

theorem PQexec_step (env : Outside) (conn : Nat) (command : String) (s : State) :
    ExecStep s (PQexec env conn command s).2 1 ∧
      (PQexec env conn command s).1 = env.exec s.execs command := by
  unfold PQexec
  refine ⟨⟨?_, rfl, rfl, rfl⟩, rfl⟩
  exact @Frame_trans s { s with execs := s.execs + 1 } _ ⟨rfl, rfl, fun _ => rfl⟩
    (Frame_emit _ _ (fun m h => by cases h))

theorem ExecStep_emit {s s1 : State} {d : Nat} (h : ExecStep s s1 d) (e : Event)
    (he : ∀ m, e ≠ Event.send_failback_request m) : ExecStep s (s1.emit e) d :=
  ⟨Frame_trans h.1 (Frame_emit s1 e he), h.2.1, h.2.2.1, h.2.2.2⟩

theorem exec_checkpoint_summary (env : Outside) (conn : Nat) (s : State) :
    ExecStep s (exec_checkpoint env conn s).2 1 ∧
      ((exec_checkpoint env conn s).1 = 0 ∨ (exec_checkpoint env conn s).1 = 1) ∧
      ((exec_checkpoint env conn s).1 = 0 ↔
        env.exec s.execs "CHECKPOINT" = ExecStatusType.PGRES_COMMAND_OK) := by
  obtain ⟨hstep, hval⟩ := PQexec_step env conn "CHECKPOINT" s
  unfold exec_checkpoint
  simp only [hval]
  refine ⟨hstep, ?_, ?_⟩
  · by_cases h : env.exec s.execs "CHECKPOINT" = ExecStatusType.PGRES_COMMAND_OK
    · left; simp [h]
    · right; simp [h]
  · by_cases h : env.exec s.execs "CHECKPOINT" = ExecStatusType.PGRES_COMMAND_OK
    · simp [h]
    · simp [h]

theorem exec_recovery_summary (cfg : PoolConfig) (env : Outside) (conn : Nat)
    (backend : BackendInfo) (first_stage : Bool) (s : State) :
    ExecStep s (exec_recovery cfg env conn backend first_stage s).2
        (script_calls cfg first_stage) ∧
      ((exec_recovery cfg env conn backend first_stage s).1 = 0 ∨
        (exec_recovery cfg env conn backend first_stage s).1 = 1) ∧
      ((exec_recovery cfg env conn backend first_stage s).1 = 0 ↔
        script_ok cfg env backend first_stage s.execs) := by
  unfold exec_recovery script_calls script_ok
  rcases hsc : stage_script cfg first_stage with _ | script
  · simp only [Option.isSome_none, Bool.false_eq_true, if_false]
    refine ⟨⟨Frame_refl s, rfl, rfl, rfl⟩, ?_, ?_⟩ <;> simp
  · obtain ⟨hstep, hval⟩ := PQexec_step env conn (recovery_command script backend) s
    simp only [Option.isSome_some, if_true, hval, Option.some.injEq, forall_eq']
    by_cases h : env.exec s.execs (recovery_command script backend)
        = ExecStatusType.PGRES_TUPLES_OK
    · simp only [h, ne_eq, not_true_eq_false, if_false, true_or, true_and, and_true]
      exact hstep
    · simp only [h, ne_eq, not_false_eq_true, if_true, one_ne_zero, false_or, iff_false,
        and_true, not_false_eq_true, or_true]
      exact ExecStep_emit hstep _ (fun m h => by cases h)

theorem exec_remote_start_summary (env : Outside) (conn : Nat) (backend : BackendInfo)
    (s : State) :
    ExecStep s (exec_remote_start env conn backend s).2 1 ∧
      ((exec_remote_start env conn backend s).1 = 0 ∨
        (exec_remote_start env conn backend s).1 = 1) ∧
      ((exec_remote_start env conn backend s).1 = 0 ↔
        env.exec s.execs (remote_start_command backend) = ExecStatusType.PGRES_TUPLES_OK) := by
  obtain ⟨hstep, hval⟩ := PQexec_step env conn (remote_start_command backend) s
  unfold exec_remote_start
  simp only [hval]
  by_cases h : env.exec s.execs (remote_start_command backend) = ExecStatusType.PGRES_TUPLES_OK
  · simp only [h, ne_eq, not_true_eq_false, if_false, true_or, true_and, and_true]
    exact hstep
  · simp only [h, ne_eq, not_false_eq_true, if_true, one_ne_zero, false_or, iff_false,
      and_true, not_false_eq_true, or_true]
    exact ExecStep_emit hstep _ (fun m h => by cases h)

theorem fail_summary (conn : Nat) (message : Option String) (s : State) :
    (fail conn message s).1 = 1 ∧ Frame s (fail conn message s).2 := by
  unfold fail
  have f1 : Frame s (s.emit (Event.PQfinish (some conn))) :=
    Frame_emit _ _ (fun m h => by cases h)
  rcases message with _ | m
  · exact ⟨rfl, f1⟩
  · exact ⟨rfl, Frame_trans f1 (Frame_emit _ _ (fun m h => by cases h))⟩

/-- The second stage: its result is 0 exactly when each of its steps succeeds; it leaves
`InRecovery` set to 1 and the request kind as it was; it issues one failback request, for the
recovered node, exactly when the result is 0. -/
theorem second_stage_summary (cfg : PoolConfig) (env : Outside) (recovery_node conn : Nat)
    (s : State) :
    ((second_stage cfg env recovery_node conn s).1 = 0 ∨
        (second_stage cfg env recovery_node conn s).1 = 1) ∧
      (second_stage cfg env recovery_node conn s).2.InRecovery = 1 ∧
      (second_stage cfg env recovery_node conn s).2.kind = s.kind ∧
      ((second_stage cfg env recovery_node conn s).1 = 0 ↔
        second_stage_ok cfg env recovery_node s) ∧
      ∀ m, failback_requests m (second_stage cfg env recovery_node conn s).2.trace =
        failback_requests m s.trace +
          (if (second_stage cfg env recovery_node conn s).1 = 0 ∧ m = recovery_node then 1
            else 0) := by
  have f0 : ∀ m, failback_requests m ({ s with InRecovery := 1 } : State).trace
      = failback_requests m s.trace := fun _ => rfl
  obtain ⟨wf, we, wl, wc, wiff⟩ :=
    wait_connection_closed_loop_summary env WAIT_RETRY_COUNT { s with InRecovery := 1 }
  -- a failure exit after the state `t`
  have hfail : ∀ (t : State) (msg : Option String), Frame { s with InRecovery := 1 } t →
      ¬ second_stage_ok cfg env recovery_node s →
      ((fail conn msg t).1 = 0 ∨ (fail conn msg t).1 = 1) ∧
        (fail conn msg t).2.InRecovery = 1 ∧ (fail conn msg t).2.kind = s.kind ∧
        ((fail conn msg t).1 = 0 ↔ second_stage_ok cfg env recovery_node s) ∧
        ∀ m, failback_requests m (fail conn msg t).2.trace =
          failback_requests m s.trace +
            (if (fail conn msg t).1 = 0 ∧ m = recovery_node then 1 else 0) := by
    intro t msg ht hnot
    obtain ⟨h1, h2⟩ := fail_summary conn msg t
    have hf := Frame_trans ht h2
    refine ⟨Or.inr h1, hf.2.1, hf.1, ?_, ?_⟩
    · rw [h1]
      exact ⟨fun h => absurd h (by norm_num), fun h => absurd h hnot⟩
    · intro m
      rw [hf.2.2 m, h1]
      simp
  unfold second_stage
  simp only
  by_cases h1 : (wait_connection_closed env { s with InRecovery := 1 }).1 = 0
  swap
  · rw [if_pos h1]
    refine hfail _ _ wf ?_
    intro hok
    exact h1 (wiff.mpr hok.1)
  rw [if_neg (not_not.mpr h1)]
  have hq := wiff.mp h1
  obtain ⟨cs, cc, ciff⟩ :=
    exec_checkpoint_summary env conn (wait_connection_closed env { s with InRecovery := 1 }).2
  have we2 : (wait_connection_closed env { s with InRecovery := 1 }).2.execs = s.execs := we
  have wl2 : (wait_connection_closed env { s with InRecovery := 1 }).2.logins = s.logins := wl
  rw [we2] at ciff
  by_cases h2 : (exec_checkpoint env conn
      (wait_connection_closed env { s with InRecovery := 1 }).2).1 = 0
  swap
  · rw [if_pos h2]
    refine hfail _ _ (Frame_trans wf cs.1) ?_
    intro hok
    exact h2 (ciff.mpr hok.2.1)
  rw [if_neg (not_not.mpr h2)]
  obtain ⟨rs, rc, riff⟩ := exec_recovery_summary cfg env conn (cfg.backend_info recovery_node)
    false (exec_checkpoint env conn (wait_connection_closed env { s with InRecovery := 1 }).2).2
  rw [cs.2.1, we2] at riff
  by_cases h3 : (exec_recovery cfg env conn (cfg.backend_info recovery_node) false
      (exec_checkpoint env conn
        (wait_connection_closed env { s with InRecovery := 1 }).2).2).1 = 0
  swap
  · rw [if_pos h3]
    refine hfail _ _ (Frame_trans (Frame_trans wf cs.1) rs.1) ?_
    intro hok
    exact h3 (riff.mpr hok.2.2.1)
  rw [if_neg (not_not.mpr h3)]
  obtain ⟨ss, sc, siff⟩ := exec_remote_start_summary env conn (cfg.backend_info recovery_node)
    (exec_recovery cfg env conn (cfg.backend_info recovery_node) false
      (exec_checkpoint env conn (wait_connection_closed env { s with InRecovery := 1 }).2).2).2
  rw [rs.2.1, cs.2.1, we2] at siff
  by_cases h4 : (exec_remote_start env conn (cfg.backend_info recovery_node)
      (exec_recovery cfg env conn (cfg.backend_info recovery_node) false
        (exec_checkpoint env conn
          (wait_connection_closed env { s with InRecovery := 1 }).2).2).2).1 = 0
  swap
  · rw [if_pos h4]
    refine hfail _ _ (Frame_trans (Frame_trans (Frame_trans wf cs.1) rs.1) ss.1) ?_
    intro hok
    exact h4 (siff.mpr hok.2.2.2.1)
  rw [if_neg (not_not.mpr h4)]
  obtain ⟨pf, _, _, pc, piff⟩ := check_postmaster_started_loop_summary cfg env
    (cfg.backend_info recovery_node) WAIT_RETRY_COUNT
    (exec_remote_start env conn (cfg.backend_info recovery_node)
      (exec_recovery cfg env conn (cfg.backend_info recovery_node) false
        (exec_checkpoint env conn
          (wait_connection_closed env { s with InRecovery := 1 }).2).2).2).2
  rw [ss.2.2.1, rs.2.2.1, cs.2.2.1, wl2] at piff
  have ftot := Frame_trans (Frame_trans (Frame_trans (Frame_trans wf cs.1) rs.1) ss.1) pf
  by_cases h5 : (check_postmaster_started cfg env (cfg.backend_info recovery_node)
      (exec_remote_start env conn (cfg.backend_info recovery_node)
        (exec_recovery cfg env conn (cfg.backend_info recovery_node) false
          (exec_checkpoint env conn
            (wait_connection_closed env { s with InRecovery := 1 }).2).2).2).2).1 = 0
  swap
  · rw [if_pos h5]
    refine hfail _ _ ftot ?_
    intro hok
    exact h5 (piff.mpr hok.2.2.2.2)
  rw [if_neg (not_not.mpr h5)]
  refine ⟨Or.inl rfl, ftot.2.1, ftot.1, ⟨fun _ => ?_, fun _ => rfl⟩, ?_⟩
  · exact ⟨hq, ciff.mp h2, riff.mp h3, siff.mp h4, piff.mp h5⟩
  · intro m
    simp only [failback_requests_emit, true_and]
    have := ftot.2.2 m
    simp only [check_postmaster_started] at this ⊢
    rw [this]
    by_cases hm : m = recovery_node
    · subst hm
      simp
    · have : ¬ (Event.send_failback_request recovery_node = Event.send_failback_request m) := by
        intro h
        injection h with h
        exact hm h.symm
      simp [hm, this]

/-- A recovery of a node that is down: the result is 0 or 1, and 0 exactly when every stage
succeeds; the request kind is set; `InRecovery` is 1 once the first stage succeeded and is
otherwise as on entry; one failback request, for the recovered node, is issued exactly when
the result is 0. -/
theorem start_recovery_summary (cfg : PoolConfig) (env : Outside) (recovery_node : Nat)
    (s : State) (hdown : cfg.VALID_BACKEND recovery_node = false) :
    ((start_recovery cfg env recovery_node s).1 = 0 ∨
        (start_recovery cfg env recovery_node s).1 = 1) ∧
      ((start_recovery cfg env recovery_node s).1 = 0 ↔
        stages_ok cfg env recovery_node s) ∧
      (start_recovery cfg env recovery_node s).2.kind
        = POOL_REQUEST_KIND.NODE_RECOVERY_REQUEST ∧
      (first_stage_ok cfg env recovery_node s →
        (start_recovery cfg env recovery_node s).2.InRecovery = 1) ∧
      (¬ first_stage_ok cfg env recovery_node s →
        (start_recovery cfg env recovery_node s).2.InRecovery = s.InRecovery) ∧
      ∀ m, failback_requests m (start_recovery cfg env recovery_node s).2.trace =
        failback_requests m s.trace +
          (if (start_recovery cfg env recovery_node s).1 = 0 ∧ m = recovery_node then 1
            else 0) := by
  -- a failure exit of the first stage after the state `t`
  have hfail : ∀ (r : Int × State), r.1 = 1 →
      Frame { s with kind := POOL_REQUEST_KIND.NODE_RECOVERY_REQUEST } r.2 →
      ¬ first_stage_ok cfg env recovery_node s →
      (r.1 = 0 ∨ r.1 = 1) ∧ (r.1 = 0 ↔ stages_ok cfg env recovery_node s) ∧
        r.2.kind = POOL_REQUEST_KIND.NODE_RECOVERY_REQUEST ∧
        (first_stage_ok cfg env recovery_node s → r.2.InRecovery = 1) ∧
        (¬ first_stage_ok cfg env recovery_node s → r.2.InRecovery = s.InRecovery) ∧
        ∀ m, failback_requests m r.2.trace =
          failback_requests m s.trace + (if r.1 = 0 ∧ m = recovery_node then 1 else 0) := by
    intro r h1 hf hnot
    refine ⟨Or.inr h1, ?_, hf.1, fun h => absurd h hnot, fun _ => hf.2.1, ?_⟩
    · rw [h1]
      exact ⟨fun h => absurd h (by norm_num), fun h => absurd h.1 hnot⟩
    · intro m
      rw [hf.2.2 m, h1]
      simp
  obtain ⟨lf, le, lr, ll, lv⟩ := login_frame cfg env (cfg.backend_info cfg.MASTER_NODE_ID)
    { s with kind := POOL_REQUEST_KIND.NODE_RECOVERY_REQUEST }
  have le2 : (login cfg env (cfg.backend_info cfg.MASTER_NODE_ID)
      { s with kind := POOL_REQUEST_KIND.NODE_RECOVERY_REQUEST }).2.execs = s.execs := le
  have lr2 : (login cfg env (cfg.backend_info cfg.MASTER_NODE_ID)
      { s with kind := POOL_REQUEST_KIND.NODE_RECOVERY_REQUEST }).2.reads = s.reads := lr
  have ll2 : (login cfg env (cfg.backend_info cfg.MASTER_NODE_ID)
      { s with kind := POOL_REQUEST_KIND.NODE_RECOVERY_REQUEST }).2.logins = s.logins + 1 := ll
  have lv2 : (login cfg env (cfg.backend_info cfg.MASTER_NODE_ID)
      { s with kind := POOL_REQUEST_KIND.NODE_RECOVERY_REQUEST }).1 = env.login s.logins := lv
  unfold start_recovery
  rw [hdown]
  simp only [Bool.false_eq_true, if_false]
  unfold connect_backend_libpq
  simp only [lv2]
  by_cases h0 : env.login s.logins = ConnStatusType.CONNECTION_OK
  swap
  · have hsr : (match (if env.login s.logins ≠ ConnStatusType.CONNECTION_OK then
            ((none : Option Nat), (login cfg env (cfg.backend_info cfg.MASTER_NODE_ID)
              { s with kind := POOL_REQUEST_KIND.NODE_RECOVERY_REQUEST }).2.emit
                (Event.PQfinish (some s.logins)))
          else (some s.logins, (login cfg env (cfg.backend_info cfg.MASTER_NODE_ID)
              { s with kind := POOL_REQUEST_KIND.NODE_RECOVERY_REQUEST }).2)) with
        | (none, s1) => ((1 : Int), (s1.emit (Event.PQfinish none)).emit
            (Event.pool_error "start_recover: could not connect master node."))
        | (some conn, s1) =>
          if (exec_checkpoint env conn s1).1 ≠ 0 then
            fail conn (some "start_recovery: CHECKPOINT failed") (exec_checkpoint env conn s1).2
          else if (exec_recovery cfg env conn (cfg.backend_info recovery_node) true
              (exec_checkpoint env conn s1).2).1 ≠ 0 then
            fail conn none (exec_recovery cfg env conn (cfg.backend_info recovery_node) true
              (exec_checkpoint env conn s1).2).2
          else second_stage cfg env recovery_node conn
            (exec_recovery cfg env conn (cfg.backend_info recovery_node) true
              (exec_checkpoint env conn s1).2).2)
        = ((1 : Int), (((login cfg env (cfg.backend_info cfg.MASTER_NODE_ID)
              { s with kind := POOL_REQUEST_KIND.NODE_RECOVERY_REQUEST }).2.emit
                (Event.PQfinish (some s.logins))).emit (Event.PQfinish none)).emit
            (Event.pool_error "start_recover: could not connect master node.")) := by
      rw [if_pos h0]
    rw [hsr]
    refine hfail (1, _) rfl ?_ (fun h => h0 h.1)
    exact Frame_trans (Frame_trans lf (Frame_emit _ _ (fun m h => by cases h)))
      (Frame_trans (Frame_emit _ _ (fun m h => by cases h))
        (Frame_emit _ _ (fun m h => by cases h)))
  have hsr : (match (if env.login s.logins ≠ ConnStatusType.CONNECTION_OK then
          ((none : Option Nat), (login cfg env (cfg.backend_info cfg.MASTER_NODE_ID)
            { s with kind := POOL_REQUEST_KIND.NODE_RECOVERY_REQUEST }).2.emit
              (Event.PQfinish (some s.logins)))
        else (some s.logins, (login cfg env (cfg.backend_info cfg.MASTER_NODE_ID)
            { s with kind := POOL_REQUEST_KIND.NODE_RECOVERY_REQUEST }).2)) with
      | (none, s1) => ((1 : Int), (s1.emit (Event.PQfinish none)).emit
          (Event.pool_error "start_recover: could not connect master node."))
      | (some conn, s1) =>
        if (exec_checkpoint env conn s1).1 ≠ 0 then
          fail conn (some "start_recovery: CHECKPOINT failed") (exec_checkpoint env conn s1).2
        else if (exec_recovery cfg env conn (cfg.backend_info recovery_node) true
            (exec_checkpoint env conn s1).2).1 ≠ 0 then
          fail conn none (exec_recovery cfg env conn (cfg.backend_info recovery_node) true
            (exec_checkpoint env conn s1).2).2
        else second_stage cfg env recovery_node conn
          (exec_recovery cfg env conn (cfg.backend_info recovery_node) true
            (exec_checkpoint env conn s1).2).2)
      = (if (exec_checkpoint env s.logins (login cfg env (cfg.backend_info cfg.MASTER_NODE_ID)
            { s with kind := POOL_REQUEST_KIND.NODE_RECOVERY_REQUEST }).2).1 ≠ 0 then
          fail s.logins (some "start_recovery: CHECKPOINT failed")
            (exec_checkpoint env s.logins (login cfg env (cfg.backend_info cfg.MASTER_NODE_ID)
              { s with kind := POOL_REQUEST_KIND.NODE_RECOVERY_REQUEST }).2).2
        else if (exec_recovery cfg env s.logins (cfg.backend_info recovery_node) true
            (exec_checkpoint env s.logins (login cfg env (cfg.backend_info cfg.MASTER_NODE_ID)
              { s with kind := POOL_REQUEST_KIND.NODE_RECOVERY_REQUEST }).2).2).1 ≠ 0 then
          fail s.logins none (exec_recovery cfg env s.logins (cfg.backend_info recovery_node)
            true (exec_checkpoint env s.logins
              (login cfg env (cfg.backend_info cfg.MASTER_NODE_ID)
                { s with kind := POOL_REQUEST_KIND.NODE_RECOVERY_REQUEST }).2).2).2
        else second_stage cfg env recovery_node s.logins
          (exec_recovery cfg env s.logins (cfg.backend_info recovery_node) true
            (exec_checkpoint env s.logins (login cfg env (cfg.backend_info cfg.MASTER_NODE_ID)
              { s with kind := POOL_REQUEST_KIND.NODE_RECOVERY_REQUEST }).2).2).2) := by
    rw [if_neg (not_not.mpr h0)]
  rw [hsr]
  obtain ⟨cs, cc, ciff⟩ := exec_checkpoint_summary env s.logins
    (login cfg env (cfg.backend_info cfg.MASTER_NODE_ID)
      { s with kind := POOL_REQUEST_KIND.NODE_RECOVERY_REQUEST }).2
  rw [le2] at ciff
  by_cases h1 : (exec_checkpoint env s.logins
      (login cfg env (cfg.backend_info cfg.MASTER_NODE_ID)
        { s with kind := POOL_REQUEST_KIND.NODE_RECOVERY_REQUEST }).2).1 = 0
  swap
  · rw [if_pos h1]
    obtain ⟨f1, f2⟩ := fail_summary s.logins (some "start_recovery: CHECKPOINT failed")
      (exec_checkpoint env s.logins
        (login cfg env (cfg.backend_info cfg.MASTER_NODE_ID)
          { s with kind := POOL_REQUEST_KIND.NODE_RECOVERY_REQUEST }).2).2
    exact hfail _ f1 (Frame_trans (Frame_trans lf cs.1) f2) (fun h => h1 (ciff.mpr h.2.1))
  rw [if_neg (not_not.mpr h1)]
  obtain ⟨rs, rc, riff⟩ := exec_recovery_summary cfg env s.logins
    (cfg.backend_info recovery_node) true
    (exec_checkpoint env s.logins
      (login cfg env (cfg.backend_info cfg.MASTER_NODE_ID)
        { s with kind := POOL_REQUEST_KIND.NODE_RECOVERY_REQUEST }).2).2
  rw [cs.2.1, le2] at riff
  by_cases h2 : (exec_recovery cfg env s.logins (cfg.backend_info recovery_node) true
      (exec_checkpoint env s.logins
        (login cfg env (cfg.backend_info cfg.MASTER_NODE_ID)
          { s with kind := POOL_REQUEST_KIND.NODE_RECOVERY_REQUEST }).2).2).1 = 0
  swap
  · rw [if_pos h2]
    obtain ⟨f1, f2⟩ := fail_summary s.logins none
      (exec_recovery cfg env s.logins (cfg.backend_info recovery_node) true
        (exec_checkpoint env s.logins
          (login cfg env (cfg.backend_info cfg.MASTER_NODE_ID)
            { s with kind := POOL_REQUEST_KIND.NODE_RECOVERY_REQUEST }).2).2).2
    exact hfail _ f1 (Frame_trans (Frame_trans (Frame_trans lf cs.1) rs.1) f2)
      (fun h => h2 (riff.mpr h.2.2))
  rw [if_neg (not_not.mpr h2)]
  have hfirst : first_stage_ok cfg env recovery_node s := ⟨h0, ciff.mp h1, riff.mp h2⟩
  have ftot := Frame_trans (Frame_trans lf cs.1) rs.1
  obtain ⟨sc, si, sk, siff, sfb⟩ := second_stage_summary cfg env recovery_node s.logins
    (exec_recovery cfg env s.logins (cfg.backend_info recovery_node) true
      (exec_checkpoint env s.logins
        (login cfg env (cfg.backend_info cfg.MASTER_NODE_ID)
          { s with kind := POOL_REQUEST_KIND.NODE_RECOVERY_REQUEST }).2).2).2
  have hsame : second_stage_ok cfg env recovery_node
      (exec_recovery cfg env s.logins (cfg.backend_info recovery_node) true
        (exec_checkpoint env s.logins
          (login cfg env (cfg.backend_info cfg.MASTER_NODE_ID)
            { s with kind := POOL_REQUEST_KIND.NODE_RECOVERY_REQUEST }).2).2).2 ↔
      second_stage_ok cfg env recovery_node
        { s with logins := s.logins + 1, execs := s.execs + 1 + script_calls cfg true } := by
    unfold second_stage_ok
    simp only [rs.2.1, rs.2.2.1, rs.2.2.2, cs.2.1, cs.2.2.1, cs.2.2.2, le2, lr2, ll2]
  refine ⟨sc, ?_, sk.trans ftot.1, fun _ => si, fun h => absurd hfirst h, ?_⟩
  · rw [siff, hsame]
    exact ⟨fun h => ⟨hfirst, h⟩, fun h => h.2⟩
  · intro m
    rw [sfb m, ftot.2.2 m]

/-- C4 (as amended): when `start_recovery` returns failure and `InRecovery` was 0 on entry,
`InRecovery` is 0 on return exactly when the failure came before the second stage (the node
was up, or the master connection, the first checkpoint or the first script failed), and it
is left at 1 exactly when the first stage had succeeded and a step of the second stage
failed (the quiesce timeout, the second checkpoint, the second script, the remote start or
the readiness timeout). -/
theorem start_recovery_failure_flag (cfg : PoolConfig) (env : Outside) (recovery_node : Nat)
    (s : State) (hentry : s.InRecovery = 0)
    (hfail : (start_recovery cfg env recovery_node s).1 ≠ 0) :
    ((start_recovery cfg env recovery_node s).2.InRecovery = 0 ↔
        (cfg.VALID_BACKEND recovery_node = true ∨
          ¬ first_stage_ok cfg env recovery_node s)) ∧
      ((start_recovery cfg env recovery_node s).2.InRecovery = 1 ↔
        (cfg.VALID_BACKEND recovery_node = false ∧
          first_stage_ok cfg env recovery_node s ∧
          ¬ second_stage_ok cfg env recovery_node
            { s with logins := s.logins + 1,
                     execs := s.execs + 1 + script_calls cfg true })) := by
  by_cases hv : cfg.VALID_BACKEND recovery_node = true
  · have hflag : (start_recovery cfg env recovery_node s).2.InRecovery = 0 := by
      unfold start_recovery
      rw [if_pos hv]
      exact hentry
    rw [hflag]
    simp [hv]
  · have hdown : cfg.VALID_BACKEND recovery_node = false := by simpa using hv
    obtain ⟨_, hiff, _, h1, h2, _⟩ := start_recovery_summary cfg env recovery_node s hdown
    by_cases hf : first_stage_ok cfg env recovery_node s
    · have hsecond : ¬ second_stage_ok cfg env recovery_node
          { s with logins := s.logins + 1,
                   execs := s.execs + 1 + script_calls cfg true } :=
        fun h => hfail (hiff.mpr ⟨hf, h⟩)
      rw [h1 hf]
      simp [hdown, hf, hsecond]
    · rw [h2 hf, hentry]
      simp [hdown, hf]

/-- C4 (as stated) fails: with `InRecovery` 0 on entry and a connection counter that never
reaches 0, `start_recovery` returns failure (quiesce timeout) and leaves `InRecovery` 1. -/
theorem start_recovery_leaves_flag_set :
    idle.InRecovery = 0 ∧ (start_recovery scenario_config scenario_busy 2 idle).1 = 1 ∧
      (start_recovery scenario_config scenario_busy 2 idle).2.InRecovery = 1 := by
  decide

/-- C4 (as amended), at the quiesce timeout. -/
theorem start_recovery_failure_flag_witness :
    idle.InRecovery = 0 ∧ (start_recovery scenario_config scenario_busy 2 idle).1 ≠ 0 ∧
      ((start_recovery scenario_config scenario_busy 2 idle).2.InRecovery = 1 ↔
        (scenario_config.VALID_BACKEND 2 = false ∧
          first_stage_ok scenario_config scenario_busy 2 idle ∧
          ¬ second_stage_ok scenario_config scenario_busy 2
            { idle with logins := idle.logins + 1,
                        execs := idle.execs + 1 + script_calls scenario_config true })) :=
  ⟨by decide, by decide,
    (start_recovery_failure_flag scenario_config scenario_busy 2 idle (by decide)
      (by decide)).2⟩

/-- C5: when the target node is already up, `start_recovery` returns failure and changes
nothing but the log: the state on return is the state on entry with one `pool_error` line
appended to the trace, so no connection is opened, no query or failback request is issued,
and the request kind and `InRecovery` are as on entry. -/
theorem start_recovery_alive_node (cfg : PoolConfig) (env : Outside) (recovery_node : Nat)
    (s : State) (hup : cfg.VALID_BACKEND recovery_node = true) :
    start_recovery cfg env recovery_node s =
      (1, { s with trace := s.trace ++ [Event.pool_error
        ("start_recovery: backend node " ++ toString recovery_node ++ " is alive")] }) := by
  unfold start_recovery
  rw [if_pos hup]
  rfl

/-- C5, at node 1 of the scenario, which is up. -/
theorem start_recovery_alive_node_witness :
    scenario_config.VALID_BACKEND 1 = true ∧
      start_recovery scenario_config scenario_B 1 idle =
        (1, { idle with trace := idle.trace ++ [Event.pool_error
          ("start_recovery: backend node " ++ toString 1 ++ " is alive")] }) :=
  ⟨by decide, start_recovery_alive_node scenario_config scenario_B 1 idle (by decide)⟩

/-- C6: for a node that is down, `start_recovery` returns 0 or 1, and 0 exactly when every
stage succeeds in order; the number of failback requests for the target node grows by one
when the result is 0 and not at all when it is not, and no failback request is issued for
another node; in particular, when all 30 trial logins fail the result is 1 and no failback
request is issued. -/
theorem start_recovery_success_iff (cfg : PoolConfig) (env : Outside) (recovery_node : Nat)
    (s : State) (hdown : cfg.VALID_BACKEND recovery_node = false) :
    ((start_recovery cfg env recovery_node s).1 = 0 ∨
        (start_recovery cfg env recovery_node s).1 = 1) ∧
      ((start_recovery cfg env recovery_node s).1 = 0 ↔ stages_ok cfg env recovery_node s) ∧
      (∀ m, failback_requests m (start_recovery cfg env recovery_node s).2.trace =
        failback_requests m s.trace +
          (if (start_recovery cfg env recovery_node s).1 = 0 ∧ m = recovery_node then 1
            else 0)) ∧
      ((∀ k, k < 30 → env.login (s.logins + 1 + k) ≠ ConnStatusType.CONNECTION_OK) →
        (start_recovery cfg env recovery_node s).1 = 1 ∧
          ∀ m, failback_requests m (start_recovery cfg env recovery_node s).2.trace =
            failback_requests m s.trace) := by
  obtain ⟨h1, h2, _, _, _, h3⟩ := start_recovery_summary cfg env recovery_node s hdown
  refine ⟨h1, h2, h3, ?_⟩
  intro hnever
  have hnot : ¬ (start_recovery cfg env recovery_node s).1 = 0 := by
    intro h0
    obtain ⟨k, hk, hok⟩ := (h2.mp h0).2.2.2.2.2
    exact hnever k hk hok
  refine ⟨h1.resolve_left hnot, fun m => ?_⟩
  rw [h3 m]
  simp [hnot]

/-- C6, at scenario B (success, one failback request) and scenario C (no trial login
succeeds). -/
theorem start_recovery_success_iff_witness :
    scenario_config.VALID_BACKEND 2 = false ∧
      (start_recovery scenario_config scenario_B 2 idle).1 = 0 ∧
      failback_requests 2 (start_recovery scenario_config scenario_B 2 idle).2.trace =
        failback_requests 2 idle.trace +
          (if (start_recovery scenario_config scenario_B 2 idle).1 = 0 ∧ 2 = 2 then 1 else 0) ∧
      (start_recovery scenario_config scenario_C 2 idle).1 = 1 :=
  ⟨by decide, by decide,
    (start_recovery_success_iff scenario_config scenario_B 2 idle (by decide)).2.2.1 2,
    ((start_recovery_success_iff scenario_config scenario_C 2 idle (by decide)).2.2.2
      (by decide)).1⟩

/-- C7: for every sequence of readings of the connection counter (the `k`-th poll reads
`env.conn_counter (s.reads + k)`), `wait_connection_closed` returns 0 at the first poll
`k < 30` whose reading is 0, after `k + 1` readings and exactly `k` calls of `sleep(3)`; it
returns 1 exactly when none of the first 30 readings is 0, and then after exactly 30
readings and 30 calls of `sleep(3)`. -/
theorem wait_connection_closed_polls (env : Outside) (s : State) :
    (∀ k, k < 30 → env.conn_counter (s.reads + k) = 0 →
        (∀ j, j < k → env.conn_counter (s.reads + j) ≠ 0) →
        wait_connection_closed env s =
          (0, { s with reads := s.reads + k + 1,
                       trace := s.trace ++ List.replicate k (Event.sleep 3) })) ∧
      ((wait_connection_closed env s).1 = 1 ↔
        ∀ k, k < 30 → env.conn_counter (s.reads + k) ≠ 0) ∧
      ((∀ k, k < 30 → env.conn_counter (s.reads + k) ≠ 0) →
        wait_connection_closed env s =
          (1, { s with reads := s.reads + 30,
                       trace := s.trace ++ List.replicate 30 (Event.sleep 3) })) := by
  obtain ⟨h1, h2⟩ := wait_connection_closed_loop_spec env WAIT_RETRY_COUNT s
  obtain ⟨_, _, _, hc, hiff⟩ := wait_connection_closed_loop_summary env WAIT_RETRY_COUNT s
  refine ⟨h1, ?_, h2⟩
  constructor
  · intro hone k hk hz
    have h0 : (wait_connection_closed env s).1 = 0 := hiff.mpr ⟨k, hk, hz⟩
    rw [h0] at hone
    exact absurd hone (by norm_num)
  · intro hall
    have := h2 hall
    unfold wait_connection_closed
    rw [this]

end Recovery

end Pgpool
